import Mathlib

/-!
Verification of the dynamic-tools subsystem of the tars-oauth-portal
repository (capability-gap detection, tool generation, validation,
loading, creation log and file watcher).

Modelling conventions:
* Python floats are modelled by exact rationals (`ℚ`); the scores,
  thresholds and offsets in the source are one- or two-decimal constants.
* Python `str` is modelled by `String`; `needle in haystack` is substring
  containment on the character lists; `str.lower` maps `Char.toLower`.
* `datetime.now().isoformat()` is threaded as an explicit `now : String`
  argument.
* File-system and subprocess effects are modelled by explicit snapshot
  structures passed to the functions that, in Python, perform the I/O.
-/

set_option maxHeartbeats 1000000

/-- Auxiliary scan for the Python substring test: does `needle` occur in
the haystack starting at any position? -/
def pyInAux (needle : List Char) : List Char → Bool
  | [] => decide (needle = [])
  | c :: rest => needle.isPrefixOf (c :: rest) || pyInAux needle rest

/-- Python substring test `needle in haystack`. -/
def pyIn (needle haystack : String) : Bool :=
  pyInAux needle.data haystack.data

/-- Python `str.lower`, mapping `Char.toLower` over the characters. -/
def pyLower (s : String) : String :=
  String.mk (s.data.map Char.toLower)

/-- Containment of `pat` in `s` as a proposition (used to state that a
generated document contains a literal section header). -/
def occursIn (pat s : String) : Prop :=
  pat.data <:+: s.data

/-! ## capability_detector.py -/

/-- Intent, from `capability_detector.Intent`: the extracted user intent. -/
structure Intent where
  category : String
  action : String
  entities : List String
  keywords : List String
deriving Repr, DecidableEq

/-- One element of the list returned by `find_matching_tools`:
a dict with a tool name and a match score. -/
structure MatchCandidate where
  name : String
  match_score : ℚ
deriving Repr, DecidableEq

/-- Score accumulation of the `for tool_name in available_tools` loop body in
`CapabilityDetector.find_matching_tools`: +0.3 for category, +0.3 for action,
+0.2 per matching entity, +0.05 per matching keyword. -/
def toolScore (intent : Intent) (tool_name : String) : ℚ :=
  let tool_lower := pyLower tool_name
  let s1 : ℚ := if pyIn intent.category tool_lower then 0 + 3/10 else 0
  let s2 := if pyIn intent.action tool_lower then s1 + 3/10 else s1
  let s3 := intent.entities.foldl
    (fun s entity => if pyIn (pyLower entity) tool_lower then s + 1/5 else s) s2
  intent.keywords.foldl
    (fun s keyword => if pyIn keyword tool_lower then s + 1/20 else s) s3

/-- CapabilityDetector.find_matching_tools: keep tools with positive score,
cap each score at 1.0, sort descending by score (Python `sorted` with
`reverse=True` is a stable sort on the key). -/
def find_matching_tools (intent : Intent) (available_tools : List String) :
    List MatchCandidate :=
  (available_tools.filterMap (fun tool_name =>
    let score := toolScore intent tool_name
    if 0 < score then some ⟨tool_name, min score 1⟩ else none)).mergeSort
    (fun a b => decide (b.match_score ≤ a.match_score))

/-- The additive score exactly as claim C1 words it: 0.3 for a category
substring match, 0.3 for action, 0.2 for each matching entity and 0.05 for
each matching keyword. -/
def claimScore (intent : Intent) (tool_name : String) : ℚ :=
  let tl := pyLower tool_name
  (if pyIn intent.category tl then (3 : ℚ)/10 else 0)
  + (if pyIn intent.action tl then (3 : ℚ)/10 else 0)
  + ((intent.entities.filter (fun e => pyIn (pyLower e) tl)).length : ℚ) * (1/5)
  + ((intent.keywords.filter (fun k => pyIn k tl)).length : ℚ) * (1/20)

/-- CapabilityGap.requirements, from `CapabilityDetector._derive_requirements`. -/
structure Requirements where
  core_functions : List String
  input_format : String
  output_format : String
  dependencies : List String
  success_criteria : List String
deriving Repr, DecidableEq

/-- CapabilityGap, from `capability_detector.CapabilityGap`. -/
structure CapabilityGap where
  gap_type : String
  description : String
  suggested_tool_name : String
  requirements : Requirements
  complexity_score : ℚ
  detected_at : String
  confidence : ℚ
deriving Repr, DecidableEq

/-- CapabilityDetector._generate_tool_name. -/
def generate_tool_name (intent : Intent) : String :=
  let name :=
    match intent.entities with
    | entity :: _ => pyLower entity ++ "-" ++ intent.action ++ "er"
    | [] => intent.category ++ "-" ++ intent.action ++ "er"
  String.replace (String.replace name ("__") ("-")) (" ") ("-")

/-- CapabilityDetector._derive_requirements. -/
def derive_requirements (intent : Intent) (gap_type : String) : Requirements :=
  let core_functions :=
    match intent.entities with
    | [] => [intent.action ++ "_data", "process_" ++ intent.category]
    | es => es.map (fun entity : String => intent.action ++ "_" ++ pyLower entity)
  let core_functions := core_functions.take 5
  let core_functions :=
    if gap_type ≠ "format-gap" then core_functions ++ ["validate_input"]
    else core_functions
  { core_functions := core_functions
    input_format := "dict"
    output_format := "dict"
    dependencies := intent.entities.take 3
    success_criteria :=
      match intent.entities with
      | [] => ["Handles " ++ intent.category ++ " operations correctly"]
      | es => (es.take 2).map
          (fun entity : String => "Successfully " ++ intent.action ++ "s " ++ entity) }

/-- The per-gap-type complexity offset dict in
`CapabilityDetector._estimate_complexity` (defaulting to 0). -/
def gap_complexity (gap_type : String) : ℚ :=
  if gap_type = "domain-gap" then 2
  else if gap_type = "integration-gap" then 3/2
  else if gap_type = "complexity-gap" then 1
  else if gap_type = "format-gap" then -1
  else if gap_type = "workflow-gap" then 3/2
  else 0

/-- Round-half-to-even on rationals, the rounding Python's `round` uses. -/
def roundHalfEven (q : ℚ) : ℤ :=
  let f := Int.floor q
  let r := q - f
  if r < 1/2 then f
  else if 1/2 < r then f + 1
  else if f % 2 = 0 then f else f + 1

/-- Python `round(x, 1)` on rationals. -/
def pyRound1 (q : ℚ) : ℚ := (roundHalfEven (10 * q) : ℚ) / 10

/-- CapabilityDetector._estimate_complexity: base 5.0, per-gap-type offset,
0.5 per entity, +1.0 if more than 10 keywords, clamp to [1, 10], round to
one decimal. -/
def estimate_complexity (intent : Intent) (gap_type : String) : ℚ :=
  let complexity : ℚ := 5
  let complexity := complexity + gap_complexity gap_type
  let complexity := complexity + (intent.entities.length : ℚ) * (1/2)
  let complexity :=
    if intent.keywords.length > 10 then complexity + 1 else complexity
  let complexity := max 1 (min 10 complexity)
  pyRound1 complexity

/-- CapabilityDetector._calculate_confidence. -/
def calculate_confidence (ms : List MatchCandidate) : ℚ :=
  match ms with
  | [] => 19/20
  | best :: _ =>
    if best.match_score < 1/5 then 9/10
    else if best.match_score < 1/2 then 7/10
    else 1/2

/-- The gap-type/description decision tree at the top of
`CapabilityDetector._characterize_gap`. -/
def gap_type_description (intent : Intent) (ms : List MatchCandidate) :
    String × String :=
  match ms with
  | [] =>
    ("domain-gap", "No existing tool handles " ++ intent.category ++ " operations")
  | best :: _ =>
    if best.match_score < 3/10 then
      ("domain-gap", "No existing tool handles " ++ intent.category ++ " operations")
    else if intent.entities.length > 1 ∧ best.match_score < 1/2 then
      ("integration-gap",
        "Need to combine " ++ String.intercalate (", ") intent.entities ++ " handling")
    else if 1/2 < best.match_score then
      ("complexity-gap",
        "Existing " ++ best.name ++ " tool insufficient for advanced "
          ++ intent.action ++ " operations")
    else
      ("format-gap",
        "Need different format handling for "
          ++ (match intent.entities with
              | e :: _ => e
              | [] => intent.category))

/-- CapabilityDetector._characterize_gap: decide the gap type and description
by the ordered decision tree, then assemble the CapabilityGap. -/
def characterize_gap (intent : Intent) (ms : List MatchCandidate)
    (now : String) : CapabilityGap :=
  let gd := gap_type_description intent ms
  { gap_type := gd.1
    description := gd.2
    suggested_tool_name := generate_tool_name intent
    requirements := derive_requirements intent gd.1
    complexity_score := estimate_complexity intent gd.1
    detected_at := now
    confidence := calculate_confidence ms }

/-- Result of `CapabilityDetector.detect_gap`: either "no gap" (with the best
match) or a CapabilityGap. -/
inductive GapResult where
  | noGap (best : MatchCandidate)
  | gap (g : CapabilityGap)
deriving Repr, DecidableEq

/-- The decision step of `CapabilityDetector.detect_gap` after intent
extraction and matching: no gap iff there are matches and the best score
exceeds 0.85, otherwise characterize the gap. -/
def gap_decision (intent : Intent) (ms : List MatchCandidate)
    (now : String) : GapResult :=
  match ms with
  | [] => .gap (characterize_gap intent [] now)
  | best :: rest =>
    if 17/20 < best.match_score then .noGap best
    else .gap (characterize_gap intent (best :: rest) now)

/-- CapabilityDetector.detect_gap on an already-extracted intent: match the
available tools, then decide. -/
def detect_gap_core (intent : Intent) (available_tools : List String)
    (now : String) : GapResult :=
  gap_decision intent (find_matching_tools intent available_tools) now

/-- The gap type of a GapResult (`none` means "no gap detected"). -/
def gapTypeOfResult : GapResult → Option String
  | .noGap _ => none
  | .gap g => some g.gap_type

/-- The gap decision as claim C2 words it: no gap exactly when the best
score is strictly greater than 0.85; otherwise domain when no candidates or
best below 0.3, integration when at least two entities and best below 0.5,
complexity when best above 0.5, format in all remaining cases. -/
def claimDecision (intent : Intent) (ms : List MatchCandidate) :
    Option String :=
  match ms with
  | [] => some "domain-gap"
  | best :: _ =>
    if 17/20 < best.match_score then none
    else if best.match_score < 3/10 then some "domain-gap"
    else if 2 ≤ intent.entities.length ∧ best.match_score < 1/2 then
      some "integration-gap"
    else if 1/2 < best.match_score then some "complexity-gap"
    else some "format-gap"

/-- Zero substring-overlap of an intent against one tool name: neither the
category, the action, any lower-cased entity nor any keyword is a substring
of the lower-cased tool name. -/
def zeroOverlap (intent : Intent) (tool_name : String) : Bool :=
  let tl := pyLower tool_name
  !(pyIn intent.category tl) && !(pyIn intent.action tl)
    && intent.entities.all (fun e => !(pyIn (pyLower e) tl))
    && intent.keywords.all (fun k => !(pyIn k tl))

/-! ### Lemmas about the score -/

theorem foldl_add_if {α : Type} (c : α → Bool) (q : ℚ) :
    ∀ (l : List α) (s : ℚ),
      l.foldl (fun s x => if c x then s + q else s) s
        = s + ((l.filter c).length : ℚ) * q := by
  intro l
  induction l with
  | nil => intro s; simp
  | cons x xs ih =>
    intro s
    by_cases hx : c x = true
    · simp only [List.foldl_cons, hx, if_true, List.filter_cons, ih]
      simp only [hx, if_true, List.length_cons]
      push_cast
      ring
    · simp only [List.foldl_cons, List.filter_cons, hx, if_false, ih]
      simp [hx]

theorem toolScore_eq_claimScore (intent : Intent) (tool_name : String) :
    toolScore intent tool_name = claimScore intent tool_name := by
  unfold toolScore claimScore
  rw [foldl_add_if, foldl_add_if]
  by_cases h1 : pyIn intent.category (pyLower tool_name) = true <;>
    by_cases h2 : pyIn intent.action (pyLower tool_name) = true <;>
      simp [h1, h2]

theorem zeroOverlap_score (intent : Intent) (tool_name : String)
    (h : zeroOverlap intent tool_name = true) :
    claimScore intent tool_name = 0 := by
  unfold zeroOverlap at h
  simp only [Bool.and_eq_true, Bool.not_eq_true', List.all_eq_true] at h
  obtain ⟨⟨⟨h1, h2⟩, h3⟩, h4⟩ := h
  unfold claimScore
  have e3 : intent.entities.filter
      (fun e => pyIn (pyLower e) (pyLower tool_name)) = [] := by
    rw [List.filter_eq_nil_iff]
    intro a ha
    simp [h3 a ha]
  have e4 : intent.keywords.filter
      (fun k => pyIn k (pyLower tool_name)) = [] := by
    rw [List.filter_eq_nil_iff]
    intro a ha
    simp [h4 a ha]
  simp [h1, h2, e3, e4]

/-! ### Claim C1 -/

/-- C1: `find_matching_tools` returns exactly the tools with strictly
positive additive score (0.3 category + 0.3 action + 0.2 per entity +
0.05 per keyword, all as substring tests on the lower-cased tool name),
each returned score capped at 1.0, and the list is sorted in descending
order of score. -/
theorem C1_find_matching_tools (intent : Intent) (available_tools : List String) :
    (∀ c : MatchCandidate,
      c ∈ find_matching_tools intent available_tools ↔
        (c.name ∈ available_tools ∧ 0 < claimScore intent c.name ∧
          c.match_score = min (claimScore intent c.name) 1))
    ∧ (find_matching_tools intent available_tools).Pairwise
        (fun a b => b.match_score ≤ a.match_score) := by
  constructor
  · intro c
    unfold find_matching_tools
    rw [List.mem_mergeSort, List.mem_filterMap]
    constructor
    · rintro ⟨t, ht, hf⟩
      simp only at hf
      rw [toolScore_eq_claimScore] at hf
      by_cases hpos : 0 < claimScore intent t
      · simp only [hpos, if_true, Option.some.injEq] at hf
        subst hf
        exact ⟨ht, hpos, rfl⟩
      · simp [hpos] at hf
    · rintro ⟨hmem, hpos, hsc⟩
      refine ⟨c.name, hmem, ?_⟩
      simp only
      rw [toolScore_eq_claimScore]
      simp only [hpos, if_true]
      cases c
      simp_all
  · have hs := @List.sorted_mergeSort MatchCandidate
      (fun a b : MatchCandidate => decide (b.match_score ≤ a.match_score))
      (fun a b c hab hbc => by
        simp only [decide_eq_true_iff] at *
        exact le_trans hbc hab)
      (fun a b => by
        simp only [Bool.or_eq_true, decide_eq_true_iff]
        exact le_total b.match_score a.match_score)
      (available_tools.filterMap (fun tool_name =>
        let score := toolScore intent tool_name
        if 0 < score then some ⟨tool_name, min score 1⟩ else none))
    unfold find_matching_tools
    exact hs.imp (fun h => by simpa using h)

/-! ### Claim C2 -/

/-- C2: the detect-gap decision reports no gap exactly when the best
candidate's score is strictly greater than 0.85, and otherwise assigns the
gap type by the ordered decision tree (domain when no candidates or best
below 0.3, integration when at least two entities and best below 0.5,
complexity when best above 0.5, format otherwise). -/
theorem C2_gap_decision (intent : Intent) (ms : List MatchCandidate)
    (now : String) :
    gapTypeOfResult (gap_decision intent ms now)
      = claimDecision intent ms := by
  cases ms with
  | nil => rfl
  | cons best rest =>
    unfold gap_decision claimDecision
    by_cases h85 : 17/20 < best.match_score
    · simp [h85, gapTypeOfResult]
    · simp only [h85, if_false]
      have hgt : gapTypeOfResult
          (.gap (characterize_gap intent (best :: rest) now))
          = some (gap_type_description intent (best :: rest)).1 := rfl
      rw [hgt]
      unfold gap_type_description
      have hiff : (2 ≤ intent.entities.length) = (intent.entities.length > 1) := rfl
      simp only [hiff]
      split_ifs <;> rfl

/-! ### Claim C3 -/

/-- C3: a request with zero substring-overlap against every available tool
name yields an empty candidate list and a domain-gap with confidence 0.95;
and in general the confidence is 0.95 with no candidates, 0.9 when the best
score is below 0.2, 0.7 when below 0.5, and 0.5 otherwise. -/
theorem C3_zero_overlap_domain_gap (intent : Intent)
    (available_tools : List String) (now : String)
    (h : ∀ t ∈ available_tools, zeroOverlap intent t = true) :
    find_matching_tools intent available_tools = []
    ∧ (∃ g, detect_gap_core intent available_tools now = .gap g
        ∧ g.gap_type = "domain-gap" ∧ g.confidence = 19/20)
    ∧ (∀ ms : List MatchCandidate,
        calculate_confidence ms =
          match ms with
          | [] => 19/20
          | best :: _ =>
            if best.match_score < 1/5 then 9/10
            else if best.match_score < 1/2 then 7/10
            else 1/2) := by
  have hempty : find_matching_tools intent available_tools = [] := by
    unfold find_matching_tools
    have hnil : available_tools.filterMap (fun tool_name =>
        let score := toolScore intent tool_name
        if 0 < score then some (⟨tool_name, min score 1⟩ : MatchCandidate)
        else none) = [] := by
      rw [List.filterMap_eq_nil_iff]
      intro t ht
      simp only
      rw [toolScore_eq_claimScore, zeroOverlap_score intent t (h t ht)]
      simp
    rw [hnil, List.mergeSort_nil]
  refine ⟨hempty, ?_, fun ms => rfl⟩
  refine ⟨characterize_gap intent [] now, ?_, rfl, rfl⟩
  unfold detect_gap_core
  rw [hempty]
  rfl

/-- Witness for C3 at a concrete input: an intent with no overlap against
the tool list `["csv-parser", "json-handler"]` gives no candidates, and the
detector reports a domain gap with confidence 0.95. -/
theorem C3_zero_overlap_domain_gap_witness :
    (∀ t ∈ (["csv-parser", "json-handler"] : List String),
      zeroOverlap ⟨"web", "fetch", [], ["quantum"]⟩ t = true)
    ∧ find_matching_tools ⟨"web", "fetch", [], ["quantum"]⟩
        ["csv-parser", "json-handler"] = [] := by
  have h : ∀ t ∈ (["csv-parser", "json-handler"] : List String),
      zeroOverlap ⟨"web", "fetch", [], ["quantum"]⟩ t = true := by decide
  exact ⟨h, (C3_zero_overlap_domain_gap ⟨"web", "fetch", [], ["quantum"]⟩
    ["csv-parser", "json-handler"] ("t0") h).1⟩

/-! ### Claim C4 -/

theorem roundHalfEven_intCast (z : ℤ) : roundHalfEven ((z : ℤ) : ℚ) = z := by
  unfold roundHalfEven
  norm_num

theorem pyRound1_half_int (q : ℚ) (w : ℤ) (hq : q = (w : ℚ) / 2) :
    pyRound1 q = q := by
  subst hq
  unfold pyRound1
  have h10 : (10 : ℚ) * ((w : ℚ) / 2) = ((5 * w : ℤ) : ℚ) := by
    push_cast
    ring
  rw [h10, roundHalfEven_intCast]
  push_cast
  ring

theorem gap_complexity_half (gt : String) :
    ∃ w : ℤ, gap_complexity gt = (w : ℚ) / 2 := by
  unfold gap_complexity
  split_ifs
  · exact ⟨4, by norm_num⟩
  · exact ⟨3, by norm_num⟩
  · exact ⟨2, by norm_num⟩
  · exact ⟨-2, by norm_num⟩
  · exact ⟨3, by norm_num⟩
  · exact ⟨0, by norm_num⟩

/-- C4: the complexity score equals the clamp-and-round of
5.0 + gap-type offset + 0.5·(entity count) + (1.0 if more than 10 keywords),
the rounding is the identity here (the value is always a multiple of 0.5,
hence already rounded to one decimal), the result lies in [1, 10], and the
offsets are domain +2.0, integration +1.5, complexity +1.0, format −1.0,
workflow +1.5. -/
theorem C4_estimate_complexity (intent : Intent) (gt : String) :
    estimate_complexity intent gt
        = pyRound1 (max 1 (min 10 (5 + gap_complexity gt
            + (intent.entities.length : ℚ) * (1/2)
            + (if intent.keywords.length > 10 then 1 else 0))))
    ∧ estimate_complexity intent gt
        = max 1 (min 10 (5 + gap_complexity gt
            + (intent.entities.length : ℚ) * (1/2)
            + (if intent.keywords.length > 10 then 1 else 0)))
    ∧ 1 ≤ estimate_complexity intent gt
    ∧ estimate_complexity intent gt ≤ 10
    ∧ (10 * estimate_complexity intent gt).den = 1
    ∧ gap_complexity "domain-gap" = 2
    ∧ gap_complexity "integration-gap" = 3/2
    ∧ gap_complexity "complexity-gap" = 1
    ∧ gap_complexity "format-gap" = -1
    ∧ gap_complexity "workflow-gap" = 3/2 := by
  obtain ⟨w, hw⟩ := gap_complexity_half gt
  set raw : ℚ := 5 + gap_complexity gt + (intent.entities.length : ℚ) * (1/2)
      + (if intent.keywords.length > 10 then 1 else 0) with hraw
  have hrawhalf : ∃ z : ℤ, raw = (z : ℚ) / 2 := by
    by_cases hk : intent.keywords.length > 10
    · refine ⟨10 + w + intent.entities.length + 2, ?_⟩
      simp only [hraw, hw, hk, if_true]
      push_cast
      ring
    · refine ⟨10 + w + intent.entities.length, ?_⟩
      simp only [hraw, hw, hk, if_false]
      push_cast
      ring
  obtain ⟨z, hz⟩ := hrawhalf
  have hclamp : ∃ z2 : ℤ, max 1 (min 10 raw) = (z2 : ℚ) / 2 := by
    rcases min_cases (10 : ℚ) raw with ⟨hmin, _⟩ | ⟨hmin, _⟩ <;>
      rcases max_cases (1 : ℚ) (min 10 raw) with ⟨hmax, _⟩ | ⟨hmax, _⟩
    · exact ⟨2, by rw [hmax]; norm_num⟩
    · exact ⟨20, by rw [hmax, hmin]; norm_num⟩
    · exact ⟨2, by rw [hmax]; norm_num⟩
    · exact ⟨z, by rw [hmax, hmin, hz]⟩
  obtain ⟨z2, hz2⟩ := hclamp
  have heq : estimate_complexity intent gt = pyRound1 (max 1 (min 10 raw)) := by
    unfold estimate_complexity
    by_cases hk : intent.keywords.length > 10
    · simp only [hraw, hk, if_true]
    · simp only [hraw, hk, if_false, add_zero]
  have hid : pyRound1 (max 1 (min 10 raw)) = max 1 (min 10 raw) :=
    pyRound1_half_int _ z2 hz2
  have hval : estimate_complexity intent gt = max 1 (min 10 raw) := by
    rw [heq, hid]
  refine ⟨heq, hval, ?_, ?_, ?_, rfl, rfl, rfl, rfl, rfl⟩
  · rw [hval]; exact le_max_left 1 _
  · rw [hval]
    exact max_le (by norm_num) (min_le_left _ _)
  · rw [hval, hz2]
    have h5 : (10 : ℚ) * ((z2 : ℚ) / 2) = ((5 * z2 : ℤ) : ℚ) := by
      push_cast; ring
    rw [h5, Rat.den_intCast]

/-! ## tool_generator.py -/

/-- The gap-info dict consumed by ToolGenerator via `.get` with defaults;
absent keys are `none`. -/
structure GapInfo where
  missing_capability : Option String
  gap_type : Option String
  complexity_score : Option ℚ
  confidence : Option ℚ
deriving Repr

/-- Python `str.capitalize`: first character upper-cased, the rest
lower-cased. -/
def pyCapitalize (s : String) : String :=
  match s.data with
  | [] => ""
  | c :: cs => String.mk (c.toUpper :: cs.map Char.toLower)

/-- Scan for Python `str.title`: upper-case a letter that follows a
non-letter, lower-case the other letters. -/
def pyTitleAux : Bool → List Char → List Char
  | _, [] => []
  | prevAlpha, c :: cs =>
    let isA := c.isAlpha
    (if isA then (if prevAlpha then c.toLower else c.toUpper) else c)
      :: pyTitleAux isA cs

/-- Python `str.title` (word boundaries taken at non-letter characters). -/
def pyTitle (s : String) : String :=
  String.mk (pyTitleAux false s.data)

/-- Decimal rendering of a tenth-valued integer, e.g. 65 ↦ "6.5". -/
def fmtTenths (n : ℤ) : String :=
  let a := n.natAbs
  (if n < 0 then "-" else "") ++ toString (a / 10) ++ "." ++ toString (a % 10)

/-- Python `str(x)` for the one-decimal floats that flow through the
generator (`complexity`); values off the tenths grid are rounded. -/
def fmtQ1 (q : ℚ) : String := fmtTenths (roundHalfEven (10 * q))

/-- Python `f"{x:.1%}"`: percentage with one decimal. -/
def fmtPct1 (q : ℚ) : String := fmtTenths (roundHalfEven (1000 * q)) ++ "%"

/-- ToolGenerator._format_title. -/
def format_title (tool_name : String) : String :=
  String.intercalate (" ") ((tool_name.splitOn ("-")).map pyCapitalize)

/-- ToolGenerator._generate_overview. -/
def generate_overview (description : String) (gap_info : GapInfo) : String :=
  "This skill provides " ++ description ++ ".\n\n**Why This Tool Was Created:**\n- Capability Gap: "
    ++ gap_info.gap_type.getD ("N/A")
    ++ "\n- Confidence: " ++ fmtPct1 (gap_info.confidence.getD 0)
    ++ "\n- Generated to fulfill unmet capability requirements\n\nThe tool is designed to be modular, extensible, and integrate seamlessly with existing OpenClaw skills."

/-- ToolGenerator._generate_capabilities. -/
def generate_capabilities (core_functions : List String)
    (requirements : Requirements) : String :=
  let capabilities := "This tool provides the following core capabilities:\n\n"
  let capabilities := core_functions.foldl (fun acc func =>
    acc ++ "- **" ++ pyTitle (String.replace func ("_") (" "))
      ++ "**: Handles " ++ String.replace func ("_") (" ") ++ " operations\n")
    capabilities
  if requirements.success_criteria ≠ [] then
    requirements.success_criteria.foldl (fun acc criterion =>
      acc ++ "- " ++ criterion ++ "\n")
      (capabilities ++ "\n**Success Criteria:**\n\n")
  else capabilities

/-- ToolGenerator._generate_implementation_pattern. -/
def generate_implementation_pattern (core_functions : List String) : String :=
  let pattern := "### Main Functions\n\n```python\n"
  let pattern := (core_functions.take 5).foldl (fun acc func =>
    acc ++ "\ndef " ++ func
      ++ "(input_data, options=None):\n    \"\"\"\n    "
      ++ pyTitle (String.replace func ("_") (" "))
      ++ " operation.\n    \n    Args:\n        input_data: Input data to process\n        options: Optional configuration dict\n    \n    Returns:\n        dict: \x7b\n            \"success\": bool,\n            \"data\": Any,\n            \"metadata\": dict\n        \x7d\n    \"\"\"\n    # Validate inputs\n    if not input_data:\n        return \x7b\"success\": False, \"error\": \"Invalid input\"\x7d\n    \n    # Process data\n    try:\n        result = _process_"
      ++ func
      ++ "(input_data, options)\n        \n        return \x7b\n            \"success\": True,\n            \"data\": result,\n            \"metadata\": \x7b\n                \"timestamp\": datetime.now().isoformat(),\n                \"function\": \""
      ++ func
      ++ "\"\n            \x7d\n        \x7d\n    except Exception as e:\n        return \x7b\n            \"success\": False,\n            \"error\": str(e)\n        \x7d\n\n")
    pattern
  pattern ++ "```\n"

/-- ToolGenerator._generate_integration_points. -/
def generate_integration_points (dependencies : List String) : String :=
  if dependencies = [] then
    "This tool operates independently with no external dependencies.\n"
  else
    let integration := "This tool integrates with:\n\n"
    let integration := (dependencies.take 5).foldl (fun acc dep =>
      acc ++ "- **" ++ dep ++ "**: Used for " ++ pyLower dep ++ " operations\n")
      integration
    integration ++ "\n**Integration Pattern:**\n\n" ++ "```python\n"
      ++ "# Example integration\n"
      ++ "from skills."
      ++ (match dependencies with
          | d :: _ => d
          | [] => "other_tool")
      ++ " import process\n\n"
      ++ "result = process(data)\n"
      ++ "# Use result in this tool\n"
      ++ "```\n"

/-- ToolGenerator._generate_usage_examples. -/
def generate_usage_examples (tool_name : String)
    (core_functions : List String) : String :=
  let examples := "### Basic Usage\n\n```python\n"
  let examples := examples ++
    (match core_functions with
     | func :: _ =>
       "# Import the tool\nfrom skills." ++ tool_name ++ " import " ++ func
         ++ "\n\n# Basic usage\nresult = " ++ func
         ++ "(input_data=\x7b\"example\": \"data\"\x7d)\n\nif result[\"success\"]:\n    print(\"Result:\", result[\"data\"])\nelse:\n    print(\"Error:\", result[\"error\"])\n"
     | [] => "")
  let examples := examples ++ "```\n\n"
  match core_functions with
  | f0 :: f1 :: _ =>
    examples ++ "### Advanced Usage\n\n```python\n"
      ++ "# Chain multiple functions\nfrom skills." ++ tool_name
      ++ " import *\n\ndata = \x7b\"input\": \"example\"\x7d\n\n# Step 1\nresult1 = "
      ++ f0 ++ "(data)\n\n# Step 2\nif result1[\"success\"]:\n    result2 = "
      ++ f1 ++ "(result1[\"data\"])\n    print(\"Final result:\", result2)\n"
      ++ "```\n"
  | _ => examples

/-- ToolGenerator._generate_test_section. -/
def generate_test_section (tool_name : String)
    (core_functions : List String) : String :=
  let tests := "**Test Coverage:**\n\n"
  let tests := (core_functions.take 5).foldl (fun acc func =>
    acc ++ "- `test_" ++ func ++ "_basic`: Basic functionality test\n"
      ++ "- `test_" ++ func ++ "_error_handling`: Error handling test\n")
    tests
  tests ++ "\n**Run Tests:**\n\n" ++ "```bash\n"
    ++ "python skills/" ++ tool_name ++ "/tests.py\n" ++ "```\n"

/-- ToolGenerator._generate_performance_notes. -/
def generate_performance_notes (complexity : ℚ) : String :=
  let pn : String × String :=
    if complexity < 4 then
      ("lightweight and fast", "This tool has minimal overhead and performs efficiently.")
    else if complexity < 7 then
      ("moderate complexity", "This tool performs well for typical use cases. Consider caching for repeated operations.")
    else
      ("complex", "This tool handles complex operations. Performance may vary based on input size. Use async operations for large datasets.")
  "**Complexity Level:** " ++ pn.1 ++ " (" ++ fmtQ1 complexity ++ "/10)\n\n"
    ++ pn.2 ++ "\n"

/-- ToolGenerator._generate_future_enhancements (a constant block). -/
def generate_future_enhancements : String :=
  "Planned improvements for v2.0:\n\n- Performance optimization and caching\n- Extended error handling and validation\n- Batch processing support\n- Async/await pattern support\n- Integration with additional tools\n- Enhanced documentation and examples\n"

/-- ToolGenerator.generate_skill_md: the SKILL.md document assembled from
front matter and the eight generated sections. -/
def generate_skill_md (tool_name : String) (requirements : Requirements)
    (gap_info : GapInfo) (now : String) : String :=
  let description := gap_info.missing_capability.getD (tool_name ++ " skill")
  let gap_type := gap_info.gap_type.getD ("domain-gap")
  let complexity := gap_info.complexity_score.getD 5
  let core_functions := requirements.core_functions
  let dependencies := requirements.dependencies
  "---\nname: " ++ tool_name
    ++ "\ndescription: " ++ description
    ++ "\ngenerated_at: " ++ now
    ++ "\ncapability_gap: " ++ gap_type
    ++ "\ncomplexity: " ++ fmtQ1 complexity
    ++ "\n---\n\n# " ++ format_title tool_name
    ++ "\n\n## Overview\n\n" ++ generate_overview description gap_info
    ++ "\n\n" ++ "## Core Capabilities" ++ "\n\n"
    ++ generate_capabilities core_functions requirements
    ++ "\n\n" ++ "## Implementation Pattern" ++ "\n\n"
    ++ generate_implementation_pattern core_functions
    ++ "\n\n## Integration Points\n\n"
    ++ generate_integration_points dependencies
    ++ "\n\n## Usage Examples\n\n"
    ++ generate_usage_examples tool_name core_functions
    ++ "\n\n## Testing\n\n"
    ++ generate_test_section tool_name core_functions
    ++ "\n\n## Performance Notes\n\n"
    ++ generate_performance_notes complexity
    ++ "\n\n## Future Enhancements\n\n"
    ++ generate_future_enhancements
    ++ "\n"

/-- ToolGenerator._estimate_build_time. -/
def estimate_build_time (complexity : ℚ) : String :=
  if complexity < 4 then "15-20 minutes"
  else if complexity < 7 then "30-45 minutes"
  else "1-2 hours"

/-- Nested requirements block of the generated metadata.json. -/
structure MetadataRequirements where
  core_functions : List String
  dependencies : List String
  complexity_score : ℚ
  estimated_build_time : String
deriving Repr, DecidableEq

/-- Nested testing block of the generated metadata.json. -/
structure MetadataTesting where
  unit_tests : ℕ
  integration_tests : ℕ
  pass_rate : ℚ
deriving Repr, DecidableEq

/-- The metadata.json record produced by ToolGenerator.generate_metadata. -/
structure Metadata where
  skill_name : String
  created_by : String
  created_at : String
  capability_gap : String
  gap_type : String
  requirements : MetadataRequirements
  testing : MetadataTesting
  status : String
  version : String
  hotreload_enabled : Bool
  last_tested : Option String
deriving Repr, DecidableEq

/-- ToolGenerator.generate_metadata. -/
def generate_metadata (tool_name : String) (requirements : Requirements)
    (gap_info : GapInfo) (now : String) : Metadata :=
  { skill_name := tool_name
    created_by := "dynamic-tools"
    created_at := now
    capability_gap := gap_info.missing_capability.getD ""
    gap_type := gap_info.gap_type.getD ("domain-gap")
    requirements :=
      { core_functions := requirements.core_functions
        dependencies := requirements.dependencies
        complexity_score := gap_info.complexity_score.getD 5
        estimated_build_time := estimate_build_time (gap_info.complexity_score.getD 5) }
    testing :=
      { unit_tests := requirements.core_functions.length * 2
        integration_tests := 0
        pass_rate := 0 }
    status := "active"
    version := "1.0"
    hotreload_enabled := true
    last_tested := none }

/-! ### Claim C5 -/

theorem occursIn_self (p : String) : occursIn p p :=
  ⟨[], [], by simp⟩

theorem occursIn_append_left (p s t : String) (h : occursIn p s) :
    occursIn p (s ++ t) := by
  unfold occursIn at *
  rw [String.data_append]
  exact h.trans ⟨[], t.data, by simp⟩

theorem occursIn_append_right (p s t : String) (h : occursIn p t) :
    occursIn p (s ++ t) := by
  unfold occursIn at *
  rw [String.data_append]
  exact h.trans ⟨s.data, [], by simp⟩

/-- C5: for tool name "pdf-reader" with core_functions ["read_pdf"] and any
gap info, the generated SKILL.md contains the literal headers
"## Core Capabilities" and "## Implementation Pattern", and the generated
metadata has version "1.0" and status "active". -/
theorem C5_generator_output (requirements : Requirements) (gap_info : GapInfo)
    (now : String) (hreq : requirements.core_functions = ["read_pdf"]) :
    occursIn ("## Core Capabilities")
        (generate_skill_md ("pdf-reader") requirements gap_info now)
    ∧ occursIn ("## Implementation Pattern")
        (generate_skill_md ("pdf-reader") requirements gap_info now)
    ∧ (generate_metadata ("pdf-reader") requirements gap_info now).version = "1.0"
    ∧ (generate_metadata ("pdf-reader") requirements gap_info now).status = "active" := by
  refine ⟨?_, ?_, rfl, rfl⟩
  · simp only [generate_skill_md]
    repeat
      first
      | exact occursIn_append_right _ _ _ (occursIn_self _)
      | apply occursIn_append_left
  · simp only [generate_skill_md]
    repeat
      first
      | exact occursIn_append_right _ _ _ (occursIn_self _)
      | apply occursIn_append_left

/-- Witness for C5 at a fully concrete input. -/
theorem C5_generator_output_witness :
    occursIn ("## Core Capabilities")
        (generate_skill_md ("pdf-reader")
          ⟨["read_pdf"], "dict", "dict", [], []⟩ ⟨none, none, none, none⟩ ("t0"))
    ∧ occursIn ("## Implementation Pattern")
        (generate_skill_md ("pdf-reader")
          ⟨["read_pdf"], "dict", "dict", [], []⟩ ⟨none, none, none, none⟩ ("t0"))
    ∧ (generate_metadata ("pdf-reader")
          ⟨["read_pdf"], "dict", "dict", [], []⟩ ⟨none, none, none, none⟩ ("t0")).version = "1.0"
    ∧ (generate_metadata ("pdf-reader")
          ⟨["read_pdf"], "dict", "dict", [], []⟩ ⟨none, none, none, none⟩ ("t0")).status = "active" :=
  C5_generator_output ⟨["read_pdf"], "dict", "dict", [], []⟩
    ⟨none, none, none, none⟩ ("t0") rfl

/-! ## tool_validator.py -/

/-- Position/message of a Python SyntaxError raised by `compile`. -/
structure PySyntaxErr where
  line : ℕ
  msg : String
deriving Repr, DecidableEq

/-- Outcome of the `subprocess.run(["python", tests_path], ...)` call in
ToolValidator.run_tests. -/
inductive TestOutcome where
  | completed (exit_code : Int) (stdout : String) (stderr : String)
  | timedOut
  | interpreterMissing
  | failed (err : String)
deriving Repr, DecidableEq

/-- A JSON value as far as the metadata checks inspect it: a string or
something else. -/
inductive JsonVal where
  | str (s : String)
  | nonStr
deriving Repr, DecidableEq

/-- The parsed metadata.json object, restricted to the keys the validator
reads (`none` = key absent). -/
structure MetaJson where
  skill_name : Option JsonVal
  created_by : Option JsonVal
  created_at : Option JsonVal
  version : Option JsonVal
  status : Option JsonVal
deriving Repr, DecidableEq

/-- A metadata.json read failure: JSON decode error or any other exception. -/
inductive JsonErr where
  | decodeErr (e : String)
  | otherErr (e : String)
deriving Repr, DecidableEq

/-- Snapshot of one tool directory as the validator observes it.
For each file, `none` means the file is absent; the inner `Except` is the
outcome of reading (and for implementation.py, compiling) it. -/
structure ToolDirFS where
  dirExists : Bool
  dirReadable : Bool
  skillMd : Option (Except String String)
  metadataJson : Option (Except JsonErr MetaJson)
  implementationPy : Option (Except String (Option PySyntaxErr))
  testsPy : Option TestOutcome
deriving Repr

/-- Details dict of a ValidationResult, by shape. -/
inductive VDetails where
  | checks (cs : List (String × Bool))
  | error (e : String)
  | message (m : String)
  | syntaxErr (line : ℕ) (message : String)
  | testRun (exit_code : Int) (stdout : String) (stderr : Option String)
      (tests_passed : Option Bool)
deriving Repr, DecidableEq

/-- ValidationResult, from `tool_validator.ValidationResult`. -/
structure ValidationResult where
  check_name : String
  passed : Bool
  details : VDetails
deriving Repr, DecidableEq

/-- Scan for Python `str.count` (non-overlapping occurrences of a nonempty
pattern, scanning left to right). -/
def pyCountAux (pat : List Char) (s : List Char) : ℕ :=
  if h : pat ≠ [] ∧ pat.isPrefixOf s then
    1 + pyCountAux pat (s.drop pat.length)
  else
    match s with
    | [] => 0
    | _ :: t => pyCountAux pat t
termination_by s.length
decreasing_by
  · have hlen : pat.length ≤ s.length :=
      List.IsPrefix.length_le (List.isPrefixOf_iff_prefix.mp h.2)
    have hpos : 0 < pat.length := List.length_pos.mpr h.1
    simp only [List.length_drop]
    omega
  · simp only [List.length_cons]
    omega

/-- Python `haystack.count(pat)` for a nonempty pattern. -/
def pyCount (haystack pat : String) : ℕ :=
  pyCountAux pat.data haystack.data

/-- ToolValidator.REQUIRED_SECTIONS. -/
def REQUIRED_SECTIONS : List String :=
  ["Overview", "Core Capabilities", "Implementation Pattern", "Usage Examples"]

/-- ToolValidator.validate_structure. -/
def validate_structure (fs : ToolDirFS) : ValidationResult :=
  let has_skill_md := fs.skillMd.isSome
  let has_metadata := fs.metadataJson.isSome
  let directory_readable := fs.dirReadable
  let front_matter_valid :=
    match fs.skillMd with
    | some (.ok content) =>
      content.startsWith ("---") && decide (2 ≤ pyCount content ("---"))
    | some (.error _) => false
    | none => false
  let checks := [("has_skill_md", has_skill_md), ("has_metadata", has_metadata),
    ("directory_readable", directory_readable),
    ("front_matter_valid", front_matter_valid)]
  ⟨"structure", checks.all (fun c => c.2), .checks checks⟩

/-- ToolValidator.validate_documentation. -/
def validate_documentation (fs : ToolDirFS) : ValidationResult :=
  match fs.skillMd with
  | none => ⟨"documentation", false, .error "SKILL.md not found"⟩
  | some (.error e) => ⟨"documentation", false, .error e⟩
  | some (.ok content) =>
    let checks := REQUIRED_SECTIONS.map (fun sec =>
      ("has_" ++ String.replace (pyLower sec) (" ") ("_"),
        pyIn ("## " ++ sec) content))
    let checks := checks ++ [("sufficient_content", decide (content.length > 500)),
      ("has_code_examples", pyIn ("```") content)]
    ⟨"documentation", checks.all (fun c => c.2), .checks checks⟩

/-- ToolValidator.validate_metadata. -/
def validate_metadata (fs : ToolDirFS) : ValidationResult :=
  match fs.metadataJson with
  | none => ⟨"metadata", false, .error "metadata.json not found"⟩
  | some (.error (.decodeErr e)) =>
    ⟨"metadata", false, .error ("Invalid JSON: " ++ e)⟩
  | some (.error (.otherErr e)) => ⟨"metadata", false, .error e⟩
  | some (.ok metadata) =>
    let checks := [("has_skill_name", metadata.skill_name.isSome),
      ("has_created_by", metadata.created_by.isSome),
      ("has_created_at", metadata.created_at.isSome),
      ("has_version", metadata.version.isSome),
      ("has_status", metadata.status.isSome)]
    let checks := checks ++
      (match metadata.version with
       | some (.str s) => [("version_valid", decide (0 < s.length))]
       | some .nonStr => [("version_valid", false)]
       | none => [])
    let checks := checks ++
      (match metadata.status with
       | some (.str s) =>
         [("status_valid", decide (s ∈ ["active", "inactive", "deprecated"]))]
       | some .nonStr => [("status_valid", false)]
       | none => [])
    ⟨"metadata", checks.all (fun c => c.2), .checks checks⟩

/-- ToolValidator.validate_syntax (read implementation.py and `compile` it;
named with a suffix because the source name cannot be declared here). -/
def validate_syntax_phase (impl : Except String (Option PySyntaxErr)) :
    ValidationResult :=
  match impl with
  | .error e => ⟨"syntax", false, .error e⟩
  | .ok none => ⟨"syntax", true, .message "Valid Python syntax"⟩
  | .ok (some serr) => ⟨"syntax", false, .syntaxErr serr.line serr.msg⟩

/-- ToolValidator.run_tests: execute tests.py as a subprocess; passed iff
the exit code is zero; timeout, a missing interpreter and any other
exception become a failed result. -/
def run_tests (outcome : TestOutcome) : ValidationResult :=
  match outcome with
  | .completed code stdout stderr =>
    ⟨"tests", code == 0,
      .testRun code (stdout.take 500)
        (if stderr ≠ "" then some (stderr.take 500) else none)
        (if pyIn ("OK") stdout || pyIn ("passed") (pyLower stdout)
         then some true else none)⟩
  | .timedOut => ⟨"tests", false, .error "Tests timed out"⟩
  | .interpreterMissing => ⟨"tests", false, .error "Python interpreter not found"⟩
  | .failed e => ⟨"tests", false, .error e⟩

/-- Aggregate result of ToolValidator.validate_tool. -/
structure ValidationReport where
  tool_name : String
  all_passed : Bool
  validations : List (String × ValidationResult)
  error : Option String
deriving Repr, DecidableEq

/-- ToolValidator.validate_tool: run structure, documentation and metadata
always, syntax only if implementation.py exists, tests only if tests.py
exists; all_passed is the conjunction over the phases run. -/
def validate_tool (tool_name : String) (fs : ToolDirFS) : ValidationReport :=
  if fs.dirExists = false then
    ⟨tool_name, false, [], some "Tool directory does not exist"⟩
  else
    let validations := [("structure", validate_structure fs),
      ("documentation", validate_documentation fs),
      ("metadata", validate_metadata fs)]
    let validations :=
      match fs.implementationPy with
      | some impl => validations ++ [("syntax", validate_syntax_phase impl)]
      | none => validations
    let validations :=
      match fs.testsPy with
      | some t => validations ++ [("tests", run_tests t)]
      | none => validations
    ⟨tool_name, validations.all (fun v => v.2.passed), validations, none⟩

/-! ### Claim C6 -/

/-- C6: for an existing tool directory, all_passed is the conjunction of the
passed flags of exactly the phases run (structure, documentation, metadata
always; syntax only with an implementation file; tests only with a test
file), and run_tests converts a timeout, a missing interpreter or a
non-zero exit code into a failed "tests" result, with passed true iff the
exit code is zero. -/
theorem C6_validate_tool (tool_name : String) (fs : ToolDirFS)
    (h : fs.dirExists = true) :
    (validate_tool tool_name fs).all_passed =
      ((validate_structure fs).passed && (validate_documentation fs).passed
        && (validate_metadata fs).passed
        && (match fs.implementationPy with
            | some impl => (validate_syntax_phase impl).passed
            | none => true)
        && (match fs.testsPy with
            | some t => (run_tests t).passed
            | none => true))
    ∧ (∀ code stdout stderr,
        (run_tests (.completed code stdout stderr)).passed = (code == 0)
        ∧ (run_tests (.completed code stdout stderr)).check_name = "tests")
    ∧ (run_tests .timedOut).passed = false
    ∧ (run_tests .timedOut).check_name = "tests"
    ∧ (run_tests .interpreterMissing).passed = false
    ∧ (run_tests .interpreterMissing).check_name = "tests"
    ∧ (∀ e, (run_tests (.failed e)).passed = false
        ∧ (run_tests (.failed e)).check_name = "tests") := by
  refine ⟨?_, fun code stdout stderr => ⟨rfl, rfl⟩, rfl, rfl, rfl, rfl,
    fun e => ⟨rfl, rfl⟩⟩
  unfold validate_tool
  rw [h]
  simp only [Bool.false_eq_true, if_false]
  cases fs.implementationPy <;> cases fs.testsPy <;>
    simp [List.all_cons, Bool.and_assoc]

/-- Witness for C6 at a concrete tool directory containing all five phase
targets. -/
theorem C6_validate_tool_witness :
    ({ dirExists := true, dirReadable := true
       skillMd := some (.ok "---\nname: x\n---\n")
       metadataJson := some (.ok ⟨some (.str "x"), some (.str "d"),
         some (.str "t"), some (.str "1.0"), some (.str "active")⟩)
       implementationPy := some (.ok none)
       testsPy := some (.completed 1 "out" "") } : ToolDirFS).dirExists = true
    ∧ (validate_tool ("x")
        { dirExists := true, dirReadable := true
          skillMd := some (.ok "---\nname: x\n---\n")
          metadataJson := some (.ok ⟨some (.str "x"), some (.str "d"),
            some (.str "t"), some (.str "1.0"), some (.str "active")⟩)
          implementationPy := some (.ok none)
          testsPy := some (.completed 1 "out" "") }).all_passed
      = ((validate_structure
            { dirExists := true, dirReadable := true
              skillMd := some (.ok "---\nname: x\n---\n")
              metadataJson := some (.ok ⟨some (.str "x"), some (.str "d"),
                some (.str "t"), some (.str "1.0"), some (.str "active")⟩)
              implementationPy := some (.ok none)
              testsPy := some (.completed 1 "out" "") }).passed
          && (validate_documentation
            { dirExists := true, dirReadable := true
              skillMd := some (.ok "---\nname: x\n---\n")
              metadataJson := some (.ok ⟨some (.str "x"), some (.str "d"),
                some (.str "t"), some (.str "1.0"), some (.str "active")⟩)
              implementationPy := some (.ok none)
              testsPy := some (.completed 1 "out" "") }).passed
          && (validate_metadata
            { dirExists := true, dirReadable := true
              skillMd := some (.ok "---\nname: x\n---\n")
              metadataJson := some (.ok ⟨some (.str "x"), some (.str "d"),
                some (.str "t"), some (.str "1.0"), some (.str "active")⟩)
              implementationPy := some (.ok none)
              testsPy := some (.completed 1 "out" "") }).passed
          && (validate_syntax_phase (.ok none)).passed
          && (run_tests (.completed 1 "out" "")).passed) :=
  ⟨rfl, (C6_validate_tool ("x") _ rfl).1⟩

/-! ## tool_loader.py -/

/-- The parsed metadata.json as far as the loader reads it: only the
`version` key (absent keys and parse-error dicts have no version). -/
structure LoaderMeta where
  version : Option String
deriving Repr, DecidableEq

/-- Snapshot of one entry of the skills directory as the loader observes it.
`implImport` is the outcome the dynamic import of implementation.py would
have for this directory (only meaningful when `hasImplementation`). -/
structure SkillDirEntry where
  name : String
  isDir : Bool
  hasSkillMd : Bool
  metadataJson : Option (Except String LoaderMeta)
  hasImplementation : Bool
  hasTests : Bool
  implImport : Except String Unit
deriving Repr

/-- The per-version tool-info dict built by ToolLoader.discover_tools. -/
structure DiscoveredTool where
  name : String
  version : String
  path : String
  has_skill_md : Bool
  has_metadata : Bool
  has_implementation : Bool
  has_tests : Bool
  metadata : LoaderMeta
  implImport : Except String Unit
  discovered_at : String
deriving Repr

/-- Append an info record to the group of its tool name (creating the group
at the end if new), mirroring `discovered[tool_name].append(tool_info)`. -/
def insertGrouped : List (String × List DiscoveredTool) → String →
    DiscoveredTool → List (String × List DiscoveredTool)
  | [], name, info => [(name, [info])]
  | (n, infos) :: rest, name, info =>
    if n = name then (n, infos ++ [info]) :: rest
    else (n, infos) :: insertGrouped rest name info

/-- Group lookup in the discovery result (Python `tool_name in discovered` /
`discovered[tool_name]`). -/
def lookupGroup (l : List (String × List DiscoveredTool)) (name : String) :
    Option (List DiscoveredTool) :=
  (l.find? (fun p => p.1 = name)).map (fun p => p.2)

/-- ToolLoader.discover_tools: rescan the skills directory; keep directories
that contain a SKILL.md; version comes from metadata (default "1.0", and a
metadata read error yields an error dict without a version key). -/
def discover_tools (fs : List SkillDirEntry) (now : String) :
    List (String × List DiscoveredTool) :=
  fs.foldl (fun discovered tool_dir =>
    if tool_dir.isDir = false then discovered
    else if tool_dir.hasSkillMd = false then discovered
    else
      let metadata : LoaderMeta :=
        match tool_dir.metadataJson with
        | none => ⟨none⟩
        | some (.error _) => ⟨none⟩
        | some (.ok m) => m
      let version := metadata.version.getD ("1.0")
      let info : DiscoveredTool :=
        ⟨tool_dir.name, version, tool_dir.name, true,
          tool_dir.metadataJson.isSome, tool_dir.hasImplementation,
          tool_dir.hasTests, metadata, tool_dir.implImport, now⟩
      insertGrouped discovered tool_dir.name info) []

/-- Status of a ToolVersion: unloaded, loaded or error. -/
inductive ToolStatus where
  | unloaded
  | loaded
  | error
deriving Repr, DecidableEq

/-- ToolVersion, from `tool_loader.ToolVersion` (the `module` reference is
modelled by the boolean `hasModule`). -/
structure ToolVersionRec where
  name : String
  version : String
  path : String
  metadata : LoaderMeta
  loaded_at : Option String
  hasModule : Bool
  status : ToolStatus
  error : Option String
deriving Repr, DecidableEq

/-- One entry of the loader's event log. -/
structure LogEvent where
  timestamp : String
  event : String
  tool : String
  details : List (String × String)
deriving Repr, DecidableEq

/-- In-memory state of a ToolLoader: the loaded-tools registry, the version
tracking map and the event log. -/
structure LoaderState where
  loaded_tools : List (String × ToolVersionRec)
  tool_versions : List (String × List ToolVersionRec)
  load_log : List LogEvent
deriving Repr

/-- Dict assignment `d[k] = v`: replace in place or append. -/
def dictInsert : List (String × ToolVersionRec) → String → ToolVersionRec →
    List (String × ToolVersionRec)
  | [], k, v => [(k, v)]
  | (k2, v2) :: rest, k, v =>
    if k2 = k then (k2, v) :: rest else (k2, v2) :: dictInsert rest k v

/-- Dict lookup `d[k]` / `k in d`. -/
def dictLookup (l : List (String × ToolVersionRec)) (k : String) :
    Option ToolVersionRec :=
  (l.find? (fun p => p.1 = k)).map (fun p => p.2)

/-- Version tracking: `self.tool_versions[tool_name].append(tool_version)`
(the `not in` membership test on fresh objects always passes in the source,
so this always appends). -/
def appendVersion : List (String × List ToolVersionRec) → String →
    ToolVersionRec → List (String × List ToolVersionRec)
  | [], name, tv => [(name, [tv])]
  | (n, tvs) :: rest, name, tv =>
    if n = name then (n, tvs ++ [tv]) :: rest
    else (n, tvs) :: appendVersion rest name tv

/-- ToolLoader._log_event. -/
def log_event (st : LoaderState) (event tool : String)
    (details : List (String × String)) (now : String) : LoaderState :=
  { st with load_log := st.load_log ++ [⟨now, event, tool, details⟩] }

/-- Version resolution in ToolLoader.load_tool: a requested version is
looked up exactly; otherwise the latest by reverse-sorted version string. -/
def selectToolInfo (tool_versions : List DiscoveredTool)
    (version : Option String) : Option DiscoveredTool :=
  match version with
  | some v => tool_versions.find? (fun t => t.version = v)
  | none =>
    (tool_versions.mergeSort (fun a b => decide (b.version ≤ a.version))).head?

/-- The successful tail of ToolLoader.load_tool: build the ToolVersion with
status loaded, store it in the registry, track the version, log success. -/
def storeLoaded (st : LoaderState) (tool_name : String)
    (info : DiscoveredTool) (hasModule : Bool) (now : String) :
    Bool × LoaderState :=
  let tv : ToolVersionRec :=
    ⟨tool_name, info.version, info.path, info.metadata, some now,
      hasModule, .loaded, none⟩
  let st := { st with
    loaded_tools := dictInsert st.loaded_tools tool_name tv
    tool_versions := appendVersion st.tool_versions tool_name tv }
  (true, log_event st "load_success" tool_name
    [("version", info.version),
     ("has_implementation", if info.has_implementation then "True" else "False")]
    now)

/-- ToolLoader.load_tool. -/
def load_tool (fs : List SkillDirEntry) (st : LoaderState)
    (tool_name : String) (version : Option String) (now : String) :
    Bool × LoaderState :=
  let discovered := discover_tools fs now
  match lookupGroup discovered tool_name with
  | none =>
    (false, log_event st "load_failed" tool_name
      [("reason", "tool_not_found")] now)
  | some tool_versions =>
    match selectToolInfo tool_versions version with
    | none =>
      (false, log_event st "load_failed" tool_name
        ([("reason", "version_not_found")]
          ++ (match version with
              | some v => [("version", v)]
              | none => [])) now)
    | some info =>
      if info.has_implementation then
        match info.implImport with
        | .error e =>
          (false, log_event st "load_failed" tool_name
            [("reason", "import_error"), ("error", e)] now)
        | .ok _ => storeLoaded st tool_name info true now
      else
        storeLoaded st tool_name info false now

/-! ### Claims C7 and C10 -/

theorem selectToolInfo_mem (tool_versions : List DiscoveredTool)
    (version : Option String) (info : DiscoveredTool)
    (h : selectToolInfo tool_versions version = some info) :
    info ∈ tool_versions := by
  cases version with
  | some v =>
    simp only [selectToolInfo] at h
    exact List.mem_of_find?_eq_some h
  | none =>
    simp only [selectToolInfo] at h
    have hmem : info ∈ tool_versions.mergeSort
        (fun a b => decide (b.version ≤ a.version)) :=
      List.mem_of_mem_head? (by rw [h]; exact rfl)
    exact List.mem_mergeSort.mp hmem

theorem dictLookup_dictInsert (l : List (String × ToolVersionRec))
    (k : String) (v : ToolVersionRec) :
    dictLookup (dictInsert l k v) k = some v := by
  induction l with
  | nil => simp [dictInsert, dictLookup]
  | cons p rest ih =>
    by_cases hk : p.1 = k
    · simp [dictInsert, dictLookup, hk]
    · cases p with
      | mk k2 v2 =>
        simp only at hk
        simp [dictInsert, dictLookup, hk, List.find?_cons] at ih ⊢
        exact ih

/-- C7: loading a discovered tool whose directory has no implementation
artifact always succeeds, stores the tool in the loaded registry and sets
its status to loaded. -/
theorem C7_load_without_implementation (fs : List SkillDirEntry)
    (st : LoaderState) (tool_name : String) (version : Option String)
    (now : String) (infos : List DiscoveredTool)
    (h1 : lookupGroup (discover_tools fs now) tool_name = some infos)
    (h2 : ∀ i ∈ infos, i.has_implementation = false)
    (info : DiscoveredTool)
    (h3 : selectToolInfo infos version = some info) :
    (load_tool fs st tool_name version now).1 = true
    ∧ ∃ tv, dictLookup (load_tool fs st tool_name version now).2.loaded_tools
          tool_name = some tv
        ∧ tv.status = .loaded
        ∧ tv.name = tool_name
        ∧ tv.version = info.version := by
  have himpl : info.has_implementation = false :=
    h2 info (selectToolInfo_mem infos version info h3)
  unfold load_tool
  simp only [h1, h3, himpl, Bool.false_eq_true, if_false]
  unfold storeLoaded
  refine ⟨rfl, ⟨⟨tool_name, info.version, info.path, info.metadata,
    some now, false, .loaded, none⟩, ?_, rfl, rfl, rfl⟩⟩
  simp only [log_event]
  exact dictLookup_dictInsert _ _ _

/-- Witness for C7 at a concrete file system: one documentation-only tool
directory, loaded by explicit version "1.0". -/
theorem C7_load_without_implementation_witness :
    (lookupGroup (discover_tools
        [⟨"pdf-reader", true, true, none, false, false, .ok ()⟩] ("t0"))
        ("pdf-reader")
      = some [⟨"pdf-reader", "1.0", "pdf-reader", true, false, false, false,
          ⟨none⟩, .ok (), "t0"⟩])
    ∧ (∀ i ∈ [(⟨"pdf-reader", "1.0", "pdf-reader", true, false, false, false,
          ⟨none⟩, .ok (), "t0"⟩ : DiscoveredTool)], i.has_implementation = false)
    ∧ (selectToolInfo [⟨"pdf-reader", "1.0", "pdf-reader", true, false, false,
          false, ⟨none⟩, .ok (), "t0"⟩] (some "1.0")
      = some ⟨"pdf-reader", "1.0", "pdf-reader", true, false, false, false,
          ⟨none⟩, .ok (), "t0"⟩)
    ∧ (load_tool [⟨"pdf-reader", true, true, none, false, false, .ok ()⟩]
        ⟨[], [], []⟩ ("pdf-reader") (some "1.0") ("t0")).1 = true := by
  refine ⟨rfl, ?_, rfl, ?_⟩
  · intro i hi
    simp only [List.mem_singleton] at hi
    rw [hi]
  · exact (C7_load_without_implementation
      [⟨"pdf-reader", true, true, none, false, false, .ok ()⟩]
      ⟨[], [], []⟩ ("pdf-reader") (some "1.0") ("t0")
      [⟨"pdf-reader", "1.0", "pdf-reader", true, false, false, false,
        ⟨none⟩, .ok (), "t0"⟩]
      rfl
      (by intro i hi; simp only [List.mem_singleton] at hi; rw [hi])
      ⟨"pdf-reader", "1.0", "pdf-reader", true, false, false, false,
        ⟨none⟩, .ok (), "t0"⟩
      rfl).1

/-- C10: whenever load_tool returns false (tool not discovered, version not
found, or implementation import raised), the loaded-tools registry is left
exactly as it was. -/
theorem C10_load_failure_registry_unchanged (fs : List SkillDirEntry)
    (st : LoaderState) (tool_name : String) (version : Option String)
    (now : String)
    (h : (load_tool fs st tool_name version now).1 = false) :
    (load_tool fs st tool_name version now).2.loaded_tools
      = st.loaded_tools := by
  cases hg : lookupGroup (discover_tools fs now) tool_name with
  | none => simp [load_tool, hg, log_event]
  | some tool_versions =>
    cases hs : selectToolInfo tool_versions version with
    | none => simp [load_tool, hg, hs, log_event]
    | some info =>
      by_cases himpl : info.has_implementation = true
      · cases hi : info.implImport with
        | error e => simp [load_tool, hg, hs, himpl, hi, log_event]
        | ok u =>
          exfalso
          simp [load_tool, hg, hs, himpl, hi, storeLoaded] at h
      · have himpl2 : info.has_implementation = false := by
          rw [← Bool.not_eq_true]; exact himpl
        exfalso
        simp [load_tool, hg, hs, himpl2, storeLoaded] at h

/-- Witness for C10 at a concrete failing call: loading from an empty
skills directory fails and leaves the (empty) registry unchanged. -/
theorem C10_load_failure_registry_unchanged_witness :
    (load_tool [] ⟨[], [], []⟩ ("missing-tool") none ("t0")).1 = false
    ∧ (load_tool [] ⟨[], [], []⟩ ("missing-tool") none ("t0")).2.loaded_tools
      = (⟨[], [], []⟩ : LoaderState).loaded_tools :=
  ⟨rfl, C10_load_failure_registry_unchanged [] ⟨[], [], []⟩ ("missing-tool")
    none ("t0") rfl⟩

/-! ## orchestrator.py (CreationLog) -/

/-- The character of a decimal digit. -/
def digitChar (d : ℕ) : Char := Char.ofNat (48 + d)

/-- The decimal digit of a digit character. -/
def digitVal (c : Char) : ℕ := c.toNat - 48

/-- Big-endian decimal digit characters of a natural number (empty for 0). -/
def decChars (n : ℕ) : List Char :=
  (Nat.digits 10 n).reverse.map digitChar

/-- Decode a big-endian decimal digit-character string. -/
def decodeDigits (cs : List Char) : ℕ :=
  Nat.ofDigits 10 ((cs.map digitVal).reverse)

/-- Python `f"{n:03d}"`: decimal digits left-padded with zeros to width 3. -/
def pyFormat03d (n : ℕ) : String :=
  let ds := if n = 0 then ['0'] else decChars n
  String.mk (List.replicate (3 - ds.length) '0' ++ ds)

/-- The id given to the n-th creation-log entry: `f"tool_{n:03d}"`. -/
def toolId (n : ℕ) : String := "tool_" ++ pyFormat03d n

theorem digitVal_digitChar (d : ℕ) (h : d < 10) :
    digitVal (digitChar d) = d := by
  interval_cases d <;> decide

theorem ofDigits_replicate_zero (k : ℕ) :
    Nat.ofDigits 10 (List.replicate k 0) = 0 := by
  induction k with
  | zero => rfl
  | succ k ih => rw [List.replicate_succ, Nat.ofDigits_cons, ih]

theorem decode_pad_decChars (k n : ℕ) :
    decodeDigits (List.replicate k '0' ++ decChars n) = n := by
  unfold decodeDigits decChars
  rw [List.map_append, List.reverse_append]
  have hrep : (List.replicate k '0').map digitVal = List.replicate k 0 := by
    rw [List.map_replicate]
    rfl
  have hdig : (((Nat.digits 10 n).reverse.map digitChar).map digitVal)
      = (Nat.digits 10 n).reverse := by
    rw [List.map_map]
    have : ∀ d ∈ (Nat.digits 10 n).reverse, (digitVal ∘ digitChar) d = d := by
      intro d hd
      have hd10 : d < 10 :=
        Nat.digits_lt_base (by norm_num) (List.mem_reverse.mp hd)
      exact digitVal_digitChar d hd10
    calc ((Nat.digits 10 n).reverse).map (digitVal ∘ digitChar)
        = ((Nat.digits 10 n).reverse).map id := List.map_congr_left this
      _ = (Nat.digits 10 n).reverse := List.map_id _
  rw [hrep, hdig, List.reverse_reverse, List.reverse_replicate,
    Nat.ofDigits_append, Nat.ofDigits_digits, ofDigits_replicate_zero]
  ring

theorem toolId_inj (a b : ℕ) (ha : 0 < a) (hb : 0 < b)
    (h : toolId a = toolId b) : a = b := by
  have ha0 : ¬(a = 0) := Nat.pos_iff_ne_zero.mp ha
  have hb0 : ¬(b = 0) := Nat.pos_iff_ne_zero.mp hb
  unfold toolId pyFormat03d at h
  simp only [ha0, hb0, if_false] at h
  have hdata := congrArg String.data h
  rw [String.data_append, String.data_append] at hdata
  have hcancel := List.append_cancel_left hdata
  calc a = decodeDigits (List.replicate (3 - (decChars a).length) '0'
        ++ decChars a) := (decode_pad_decChars _ a).symm
    _ = decodeDigits (List.replicate (3 - (decChars b).length) '0'
        ++ decChars b) := congrArg decodeDigits hcancel
    _ = b := decode_pad_decChars _ b

/-- The tool_info dict handed to CreationLog.add_entry, restricted to the
keys the statistics read via `.get` (absent keys are `none`). -/
structure CreationToolInfo where
  capability_gap_type : Option String
  complexity_score : Option ℚ
  validation_passed : Option Bool
  hotreload_success : Option Bool
deriving Repr, DecidableEq

/-- One creation-log entry: sequential id, timestamp and the tool info. -/
structure CreationEntry where
  id : String
  created_at : String
  info : CreationToolInfo
deriving Repr, DecidableEq

/-- `tool.get("capability_gap_type", "unknown")`. -/
def entryGapType (e : CreationEntry) : String :=
  e.info.capability_gap_type.getD ("unknown")

/-- `tool.get("complexity_score", 0)`. -/
def entryComplexity (e : CreationEntry) : ℚ :=
  e.info.complexity_score.getD 0

/-- `tool.get("validation_passed", False)`. -/
def entryValidation (e : CreationEntry) : Bool :=
  e.info.validation_passed.getD false

/-- `tool.get("hotreload_success", False)`. -/
def entryHotreload (e : CreationEntry) : Bool :=
  e.info.hotreload_success.getD false

/-- The statistics block of the creation log. -/
structure LogStatistics where
  by_gap_type : List (String × ℕ)
  average_complexity : ℚ
  validation_pass_rate : ℚ
  hotreload_success_rate : ℚ
deriving Repr, DecidableEq

/-- The persisted document managed by CreationLog. -/
structure CreationLogData where
  version : String
  created_at : String
  total_tools_created : ℕ
  tools : List CreationEntry
  statistics : LogStatistics
deriving Repr, DecidableEq

/-- The statistics block of a fresh log. -/
def initStatistics : LogStatistics := ⟨[], 0, 0, 0⟩

/-- CreationLog._load_log's default document. -/
def emptyLogData (now : String) : CreationLogData :=
  ⟨"1.0", now, 0, [], initStatistics⟩

/-- `gap_counts[gap_type] = gap_counts.get(gap_type, 0) + 1` on an
insertion-ordered counts dict. -/
def bumpCount : List (String × ℕ) → String → List (String × ℕ)
  | [], k => [(k, 1)]
  | (k2, v) :: rest, k =>
    if k2 = k then (k2, v + 1) :: rest else (k2, v) :: bumpCount rest k

/-- CreationLog._update_statistics: recompute every statistic from the full
tools list (and leave the previous block untouched when the list is
empty, mirroring the early return). -/
def computeStatistics (tools : List CreationEntry) (prev : LogStatistics) :
    LogStatistics :=
  if tools = [] then prev
  else
    { by_gap_type := tools.foldl (fun m t => bumpCount m (entryGapType t)) []
      average_complexity :=
        (tools.map entryComplexity).sum / (tools.length : ℚ)
      validation_pass_rate :=
        (tools.map (fun t => if entryValidation t then (1 : ℚ) else 0)).sum
          / (tools.length : ℚ)
      hotreload_success_rate :=
        (tools.map (fun t => if entryHotreload t then (1 : ℚ) else 0)).sum
          / (tools.length : ℚ) }

/-- CreationLog.add_entry: assign the sequential id, append the entry,
refresh the total and recompute the statistics (the `_save_log` file write
is outside the model). -/
def add_entry (log : CreationLogData) (tool_info : CreationToolInfo)
    (now : String) : String × CreationLogData :=
  let tool_id := toolId (log.tools.length + 1)
  let entry : CreationEntry := ⟨tool_id, now, tool_info⟩
  let tools := log.tools ++ [entry]
  (tool_id,
    { log with
      tools := tools
      total_tools_created := tools.length
      statistics := computeStatistics tools log.statistics })

/-- N successive calls to add_entry. -/
def add_entries (log : CreationLogData)
    (items : List (CreationToolInfo × String)) : CreationLogData :=
  items.foldl (fun l it => (add_entry l it.1 it.2).2) log

/-- Total of the per-gap-type counts. -/
def sumCounts (l : List (String × ℕ)) : ℕ := (l.map (fun p => p.2)).sum

theorem sumCounts_bumpCount (m : List (String × ℕ)) (k : String) :
    sumCounts (bumpCount m k) = sumCounts m + 1 := by
  induction m with
  | nil => rfl
  | cons p rest ih =>
    cases p with
    | mk k2 v =>
      by_cases hk : k2 = k
      · simp [bumpCount, hk, sumCounts]
        omega
      · simp [bumpCount, hk, sumCounts] at ih ⊢
        omega

theorem sumCounts_foldl_bump (l : List CreationEntry) :
    ∀ m : List (String × ℕ),
      sumCounts (l.foldl (fun m t => bumpCount m (entryGapType t)) m)
        = sumCounts m + l.length := by
  induction l with
  | nil => intro m; simp
  | cons t ts ih =>
    intro m
    rw [List.foldl_cons, ih, sumCounts_bumpCount]
    simp only [List.length_cons]
    omega

/-- The invariant maintained by add_entry: the running total equals the
entry count, the ids are the sequential tool ids, and the statistics are
the pure recomputation from the entry list. -/
def logInv (log : CreationLogData) : Prop :=
  log.total_tools_created = log.tools.length
  ∧ log.tools.map (fun e => e.id)
      = (List.range log.tools.length).map (fun k => toolId (k + 1))
  ∧ log.statistics = computeStatistics log.tools initStatistics

theorem computeStatistics_prev_irrel (tools : List CreationEntry)
    (h : tools ≠ []) (p q : LogStatistics) :
    computeStatistics tools p = computeStatistics tools q := by
  unfold computeStatistics
  simp [h]

theorem add_entry_inv (log : CreationLogData) (tool_info : CreationToolInfo)
    (now : String) (h : logInv log) :
    logInv (add_entry log tool_info now).2
    ∧ (add_entry log tool_info now).2.tools.length = log.tools.length + 1 := by
  obtain ⟨h1, h2, h3⟩ := h
  have hne : log.tools ++ [(⟨toolId (log.tools.length + 1), now, tool_info⟩
      : CreationEntry)] ≠ [] := by simp
  refine ⟨⟨?_, ?_, ?_⟩, ?_⟩
  · simp [add_entry]
  · show (log.tools ++ [(⟨toolId (log.tools.length + 1), now, tool_info⟩
        : CreationEntry)]).map (fun e => e.id)
      = (List.range (log.tools ++ [(⟨toolId (log.tools.length + 1), now,
          tool_info⟩ : CreationEntry)]).length).map (fun k => toolId (k + 1))
    rw [List.map_append, h2, List.length_append]
    simp [List.range_succ]
  · show computeStatistics (log.tools ++ [(⟨toolId (log.tools.length + 1),
        now, tool_info⟩ : CreationEntry)]) log.statistics
      = computeStatistics (log.tools ++ [(⟨toolId (log.tools.length + 1),
          now, tool_info⟩ : CreationEntry)]) initStatistics
    exact computeStatistics_prev_irrel _ hne _ _
  · simp [add_entry]

theorem add_entries_inv (items : List (CreationToolInfo × String)) :
    ∀ log : CreationLogData, logInv log →
      logInv (add_entries log items)
      ∧ (add_entries log items).tools.length
          = log.tools.length + items.length := by
  induction items with
  | nil => intro log h; exact ⟨h, by simp [add_entries]⟩
  | cons it its ih =>
    intro log h
    obtain ⟨hinv, hlen⟩ := add_entry_inv log it.1 it.2 h
    obtain ⟨hinv2, hlen2⟩ := ih (add_entry log it.1 it.2).2 hinv
    refine ⟨hinv2, ?_⟩
    show (add_entries (add_entry log it.1 it.2).2 its).tools.length = _
    rw [hlen2, hlen]
    simp only [List.length_cons]
    omega

/-! ### Claim C8 -/

/-- C8: after N appends to an empty creation log, get_tools returns exactly
N entries whose ids are the distinct sequential strings tool_001..tool_NNN,
total_tools_created equals N, the per-gap-type counts sum to N, and the
statistics block is the pure recomputation from the entry list. -/
theorem C8_creation_log (items : List (CreationToolInfo × String))
    (now0 : String) :
    (add_entries (emptyLogData now0) items).tools.length = items.length
    ∧ (add_entries (emptyLogData now0) items).tools.map (fun e => e.id)
        = (List.range items.length).map (fun k => toolId (k + 1))
    ∧ ((add_entries (emptyLogData now0) items).tools.map (fun e => e.id)).Nodup
    ∧ (add_entries (emptyLogData now0) items).total_tools_created = items.length
    ∧ sumCounts (add_entries (emptyLogData now0) items).statistics.by_gap_type
        = items.length
    ∧ (add_entries (emptyLogData now0) items).statistics
        = computeStatistics (add_entries (emptyLogData now0) items).tools
            initStatistics := by
  have hinv0 : logInv (emptyLogData now0) := ⟨rfl, rfl, rfl⟩
  obtain ⟨⟨h1, h2, h3⟩, hlen⟩ := add_entries_inv items (emptyLogData now0) hinv0
  have hlenN : (add_entries (emptyLogData now0) items).tools.length
      = items.length := by simpa [emptyLogData] using hlen
  have hinj : Function.Injective (fun k => toolId (k + 1)) := by
    intro k1 k2 hk
    have := toolId_inj (k1 + 1) (k2 + 1) (Nat.succ_pos k1) (Nat.succ_pos k2) hk
    omega
  refine ⟨hlenN, ?_, ?_, ?_, ?_, h3⟩
  · rw [h2, hlenN]
  · rw [h2]
    exact List.Nodup.map hinj (List.nodup_range _)
  · rw [h1, hlenN]
  · rw [h3]
    by_cases hnil : (add_entries (emptyLogData now0) items).tools = []
    · have : items.length = 0 := by rw [← hlenN, hnil]; rfl
      rw [hnil, this]
      rfl
    · unfold computeStatistics
      simp only [hnil, if_false]
      rw [sumCounts_foldl_bump]
      simpa [sumCounts] using hlenN

/-! ## tool_watcher.py -/

/-- Snapshot of one watched file: modification time and content hash
(the md5 of the content is modelled as an abstract hash string). -/
structure WFile where
  mtime : Int
  hash : String
deriving Repr, DecidableEq

/-- The three files a tool directory may contain that the watcher tracks. -/
structure ToolFiles where
  skillMd : Option WFile
  metadataJson : Option WFile
  implementationPy : Option WFile
deriving Repr, DecidableEq

/-- Snapshot of the skills directory as the watcher observes it. -/
structure WatcherFS where
  dirExists : Bool
  dirs : List (String × ToolFiles)
deriving Repr, DecidableEq

/-- FileWatcher state: the path (tool, file) and the remembered
modification time and hash. -/
structure FileWatcherRec where
  tool : String
  file : String
  last_modified : Int
  last_hash : String
deriving Repr, DecidableEq

/-- Current on-disk state of a watched file. -/
def fileLookup (fs : WatcherFS) (tool file : String) : Option WFile :=
  match fs.dirs.find? (fun p => p.1 = tool) with
  | none => none
  | some p =>
    if file = "SKILL.md" then p.2.skillMd
    else if file = "metadata.json" then p.2.metadataJson
    else if file = "implementation.py" then p.2.implementationPy
    else none

/-- FileWatcher.has_changed: a missing file counts as changed when state was
ever recorded; otherwise compare mtime and then hash, updating the record
only when both differ. -/
def hasChanged (cur : Option WFile) (w : FileWatcherRec) :
    Bool × FileWatcherRec :=
  match cur with
  | none => ((decide (w.last_modified ≠ 0) || decide (w.last_hash ≠ "")), w)
  | some f =>
    if f.mtime ≠ w.last_modified then
      if f.hash ≠ w.last_hash then
        (true, { w with last_modified := f.mtime, last_hash := f.hash })
      else (false, w)
    else (false, w)

/-- The per-tool file watchers a scan installs for a newly seen tool
directory (one per existing tracked file). -/
def initToolWatchers (tool : String) (tf : ToolFiles) :
    List (String × FileWatcherRec) :=
  (match tf.skillMd with
   | some f => [("SKILL.md", ⟨tool, "SKILL.md", f.mtime, f.hash⟩)]
   | none => [])
  ++ (match tf.metadataJson with
      | some f => [("metadata.json", ⟨tool, "metadata.json", f.mtime, f.hash⟩)]
      | none => [])
  ++ (match tf.implementationPy with
      | some f =>
        [("implementation.py", ⟨tool, "implementation.py", f.mtime, f.hash⟩)]
      | none => [])

/-- In-memory state of a ToolWatcher. -/
structure WatcherState where
  watchers : List (String × List (String × FileWatcherRec))
  known_tools : List String
deriving Repr, DecidableEq

/-- A registered callback: called with the tool name and a details dict,
it either returns or raises (modelled by `Except`). -/
abbrev Cb := String → List (String × String) → Except String Unit

/-- The callbacks dict of a ToolWatcher, keyed by event name. -/
structure Callbacks where
  tool_added : List Cb
  tool_updated : List Cb
  tool_removed : List Cb

/-- A watcher with no registered callbacks. -/
def noCallbacks : Callbacks := ⟨[], [], []⟩

/-- `self.callbacks[event]` (empty for an unknown event, mirroring the
`if event in self.callbacks` guard). -/
def getCallbacks (cbs : Callbacks) (event : String) : List Cb :=
  if event = "tool_added" then cbs.tool_added
  else if event = "tool_updated" then cbs.tool_updated
  else if event = "tool_removed" then cbs.tool_removed
  else []

/-- Body of the callback loop in ToolWatcher._trigger_event: try the
callback; an exception is caught and its message logged. -/
def triggerStep (tool_name : String) (details : List (String × String))
    (logs : List String) (cb : Cb) : Except String (List String) :=
  match cb tool_name details with
  | .ok _ => Except.ok logs
  | .error e => Except.ok (logs ++ ["[ToolWatcher] Error in callback: " ++ e])

/-- ToolWatcher._trigger_event: call every registered callback for the
event; a raising callback is caught and its error logged, and the loop
continues with the remaining callbacks. -/
def trigger_event (cbs : Callbacks) (event tool_name : String)
    (details : List (String × String)) : Except String (List String) :=
  (getCallbacks cbs event).foldlM (triggerStep tool_name details) []

/-- The log the catch loop of _trigger_event produces: one message per
raising callback, in order, with every callback invoked. -/
def collectCallbackErrors (cbl : List Cb) (tool_name : String)
    (details : List (String × String)) : List String :=
  cbl.filterMap (fun cb =>
    match cb tool_name details with
    | .ok _ => none
    | .error e => some ("[ToolWatcher] Error in callback: " ++ e))

theorem trigger_foldl_ok (tool_name : String)
    (details : List (String × String)) (cbl : List Cb) :
    ∀ acc : List String,
      cbl.foldlM (triggerStep tool_name details) acc
      = Except.ok (acc ++ collectCallbackErrors cbl tool_name details) := by
  induction cbl with
  | nil => intro acc; simp [collectCallbackErrors]; rfl
  | cons cb rest ih =>
    intro acc
    rw [List.foldlM_cons]
    cases hcb : cb tool_name details with
    | ok u =>
      have hstep : triggerStep tool_name details acc cb = Except.ok acc := by
        simp [triggerStep, hcb]
      rw [hstep]
      show rest.foldlM (triggerStep tool_name details) acc = _
      rw [ih acc]
      simp [collectCallbackErrors, hcb]
    | error e =>
      have hstep : triggerStep tool_name details acc cb
          = Except.ok (acc ++ ["[ToolWatcher] Error in callback: " ++ e]) := by
        simp [triggerStep, hcb]
      rw [hstep]
      show rest.foldlM (triggerStep tool_name details)
        (acc ++ ["[ToolWatcher] Error in callback: " ++ e]) = _
      rw [ih]
      simp [collectCallbackErrors, hcb, List.append_assoc]

theorem trigger_event_ok (cbs : Callbacks) (event tool_name : String)
    (details : List (String × String)) :
    trigger_event cbs event tool_name details
      = Except.ok (collectCallbackErrors (getCallbacks cbs event)
          tool_name details) := by
  unfold trigger_event
  rw [trigger_foldl_ok]
  simp

/-! ### Generic shape lemmas for the logging folds -/

theorem foldlM_shape {σ α : Type}
    (f : σ × List String → α → Except String (σ × List String))
    (u : σ → α → σ)
    (hf : ∀ (s : σ) (logs : List String) (a : α),
      ∃ nl, f (s, logs) a = Except.ok (u s a, logs ++ nl)) :
    ∀ (l : List α) (s : σ) (logs : List String),
      ∃ nl, l.foldlM f (s, logs) = Except.ok (l.foldl u s, logs ++ nl) := by
  intro l
  induction l with
  | nil =>
    intro s logs
    refine ⟨[], ?_⟩
    simp only [List.foldlM_nil, List.foldl_nil, List.append_nil]
    rfl
  | cons a as ih =>
    intro s logs
    obtain ⟨nl1, h1⟩ := hf s logs a
    obtain ⟨nl2, h2⟩ := ih (u s a) (logs ++ nl1)
    refine ⟨nl1 ++ nl2, ?_⟩
    rw [List.foldlM_cons, h1]
    show as.foldlM f (u s a, logs ++ nl1) = _
    rw [h2]
    simp [List.append_assoc]

theorem foldlM_silent {σ α : Type}
    (g : σ × List String → α → Except String (σ × List String))
    (u : σ → α → σ)
    (hg : ∀ (s : σ) (logs : List String) (a : α),
      g (s, logs) a = Except.ok (u s a, logs)) :
    ∀ (l : List α) (s : σ) (logs : List String),
      l.foldlM g (s, logs) = Except.ok (l.foldl u s, logs) := by
  intro l
  induction l with
  | nil => intro s logs; rfl
  | cons a as ih =>
    intro s logs
    rw [List.foldlM_cons, hg]
    show as.foldlM g (u s a, logs) = _
    rw [ih, List.foldl_cons]

/-! ### _scan_tools -/

/-- Pure state update of one iteration of the directory loop in
ToolWatcher._scan_tools: record the tool as current and install watchers
for a newly seen tool. -/
def scanDirStepP
    (wc : List (String × List (String × FileWatcherRec)) × List String)
    (entry : String × ToolFiles) :
    List (String × List (String × FileWatcherRec)) × List String :=
  let watchers := wc.1
  let current := wc.2 ++ [entry.1]
  if (watchers.find? (fun p => p.1 = entry.1)).isSome then (watchers, current)
  else (watchers ++ [(entry.1, initToolWatchers entry.1 entry.2)], current)

/-- One iteration of the directory loop, with the tool_added trigger for a
tool that is new to both the watchers dict and known_tools. -/
def scanDirStepM (cbs : Callbacks) (known : List String)
    (acc : (List (String × List (String × FileWatcherRec)) × List String)
      × List String)
    (entry : String × ToolFiles) :
    Except String ((List (String × List (String × FileWatcherRec))
      × List String) × List String) :=
  let watchers := acc.1.1
  let current := acc.1.2 ++ [entry.1]
  if (watchers.find? (fun p => p.1 = entry.1)).isSome then
    Except.ok ((watchers, current), acc.2)
  else
    let watchers2 := watchers ++ [(entry.1, initToolWatchers entry.1 entry.2)]
    if entry.1 ∈ known then
      Except.ok ((watchers2, current), acc.2)
    else
      match trigger_event cbs "tool_added" entry.1 [] with
      | .ok msgs => Except.ok ((watchers2, current), acc.2 ++ msgs)
      | .error e => Except.error e

theorem scanDirStepM_shape (cbs : Callbacks) (known : List String) :
    ∀ s logs entry, ∃ nl,
      scanDirStepM cbs known (s, logs) entry
        = Except.ok (scanDirStepP s entry, logs ++ nl) := by
  intro s logs entry
  unfold scanDirStepM scanDirStepP
  by_cases hfind : (s.1.find? (fun p => p.1 = entry.1)).isSome = true
  · exact ⟨[], by simp [hfind]⟩
  · by_cases hknown : entry.1 ∈ known
    · exact ⟨[], by simp [hfind, hknown]⟩
    · refine ⟨collectCallbackErrors (getCallbacks cbs "tool_added")
        entry.1 [], ?_⟩
      rw [trigger_event_ok] at *
      simp [hfind, hknown, trigger_event_ok]

theorem scanDirStepM_silent (known : List String) :
    ∀ s logs entry,
      scanDirStepM noCallbacks known (s, logs) entry
        = Except.ok (scanDirStepP s entry, logs) := by
  intro s logs entry
  unfold scanDirStepM scanDirStepP
  by_cases hfind : (s.1.find? (fun p => p.1 = entry.1)).isSome = true
  · simp [hfind]
  · by_cases hknown : entry.1 ∈ known
    · simp [hfind, hknown]
    · simp [hfind, hknown, trigger_event_ok, collectCallbackErrors,
        getCallbacks, noCallbacks]

/-- Pure state update of the removed-tools loop: drop the watcher entry. -/
def removedStepP (watchers : List (String × List (String × FileWatcherRec)))
    (name : String) : List (String × List (String × FileWatcherRec)) :=
  watchers.filter (fun p => !(p.1 == name))

/-- One iteration of the removed-tools loop, with the tool_removed
trigger. -/
def removedStepM (cbs : Callbacks)
    (acc : List (String × List (String × FileWatcherRec)) × List String)
    (name : String) :
    Except String (List (String × List (String × FileWatcherRec))
      × List String) :=
  match trigger_event cbs "tool_removed" name [] with
  | .ok msgs => Except.ok (removedStepP acc.1 name, acc.2 ++ msgs)
  | .error e => Except.error e

theorem removedStepM_shape (cbs : Callbacks) :
    ∀ s logs name, ∃ nl,
      removedStepM cbs (s, logs) name
        = Except.ok (removedStepP s name, logs ++ nl) := by
  intro s logs name
  refine ⟨collectCallbackErrors (getCallbacks cbs "tool_removed") name [], ?_⟩
  unfold removedStepM
  rw [trigger_event_ok]

theorem removedStepM_silent :
    ∀ s logs name,
      removedStepM noCallbacks (s, logs) name
        = Except.ok (removedStepP s name, logs) := by
  intro s logs name
  unfold removedStepM
  rw [trigger_event_ok]
  simp [collectCallbackErrors, getCallbacks, noCallbacks]

/-- ToolWatcher._scan_tools: rescan the skills directory, install watchers
and fire tool_added for new tools, fire tool_removed and drop watchers for
vanished tools, and remember the current tool set. -/
def scan_tools (fs : WatcherFS) (st : WatcherState) (cbs : Callbacks) :
    Except String (WatcherState × List String) :=
  if fs.dirExists = false then Except.ok (st, [])
  else
    match fs.dirs.foldlM (scanDirStepM cbs st.known_tools)
        ((st.watchers, []), []) with
    | .error e => Except.error e
    | .ok r1 =>
      let current := r1.1.2
      let removed := st.known_tools.filter (fun n => !(current.contains n))
      match removed.foldlM (removedStepM cbs) (r1.1.1, r1.2) with
      | .error e => Except.error e
      | .ok r2 => Except.ok (⟨r2.1, current⟩, r2.2)

theorem scan_tools_ok (fs : WatcherFS) (st : WatcherState) (cbs : Callbacks) :
    ∃ st1 logs, scan_tools fs st cbs = Except.ok (st1, logs)
      ∧ scan_tools fs st noCallbacks = Except.ok (st1, []) := by
  by_cases hex : fs.dirExists = false
  · exact ⟨st, [], by simp [scan_tools, hex], by simp [scan_tools, hex]⟩
  · obtain ⟨nl1, h1⟩ := foldlM_shape (scanDirStepM cbs st.known_tools)
      scanDirStepP (scanDirStepM_shape cbs st.known_tools)
      fs.dirs (st.watchers, []) []
    have h1s := foldlM_silent (scanDirStepM noCallbacks st.known_tools)
      scanDirStepP (scanDirStepM_silent st.known_tools)
      fs.dirs (st.watchers, []) []
    set r := fs.dirs.foldl scanDirStepP (st.watchers, []) with hr
    obtain ⟨nl2, h2⟩ := foldlM_shape (removedStepM cbs) removedStepP
      (removedStepM_shape cbs)
      (st.known_tools.filter (fun n => !(r.2.contains n))) r.1 ([] ++ nl1)
    have h2s := foldlM_silent (removedStepM noCallbacks) removedStepP
      removedStepM_silent
      (st.known_tools.filter (fun n => !(r.2.contains n))) r.1 []
    refine ⟨⟨(st.known_tools.filter
        (fun n => !(r.2.contains n))).foldl removedStepP r.1, r.2⟩,
      ([] ++ nl1) ++ nl2, ?_, ?_⟩
    · unfold scan_tools
      rw [if_neg hex, h1]
      show (match (st.known_tools.filter
            (fun n => !(r.2.contains n))).foldlM (removedStepM cbs)
            (r.1, [] ++ nl1) with
        | .error e => Except.error e
        | .ok r2 =>
          Except.ok ((⟨r2.1, r.2⟩ : WatcherState), r2.2)) = _
      rw [h2]
    · unfold scan_tools
      rw [if_neg hex, h1s]
      show (match (st.known_tools.filter
            (fun n => !(r.2.contains n))).foldlM (removedStepM noCallbacks)
            (r.1, []) with
        | .error e => Except.error e
        | .ok r2 =>
          Except.ok ((⟨r2.1, r.2⟩ : WatcherState), r2.2)) = _
      rw [h2s]

/-! ### check -/

/-- One change event reported by ToolWatcher.check. -/
structure ChangeEvent where
  timestamp : String
  event : String
  tool : String
  file : String
  path : String
deriving Repr, DecidableEq

/-- Pure state update of the inner file loop of check: recompute
has_changed, keep the (possibly updated) watcher, and record a change. -/
def checkFileStepP (fs : WatcherFS) (tool now : String)
    (sc : List (String × FileWatcherRec) × List ChangeEvent)
    (fw : String × FileWatcherRec) :
    List (String × FileWatcherRec) × List ChangeEvent :=
  let bw := hasChanged (fileLookup fs tool fw.1) fw.2
  if bw.1 then
    (sc.1 ++ [(fw.1, bw.2)],
      sc.2 ++ [⟨now, "tool_updated", tool, fw.1, tool ++ "/" ++ fw.1⟩])
  else (sc.1 ++ [(fw.1, bw.2)], sc.2)

/-- One iteration of the inner file loop, with the tool_updated trigger. -/
def checkFileStepM (cbs : Callbacks) (fs : WatcherFS) (tool now : String)
    (acc : (List (String × FileWatcherRec) × List ChangeEvent) × List String)
    (fw : String × FileWatcherRec) :
    Except String ((List (String × FileWatcherRec) × List ChangeEvent)
      × List String) :=
  let bw := hasChanged (fileLookup fs tool fw.1) fw.2
  if bw.1 then
    match trigger_event cbs "tool_updated" tool [("file", fw.1)] with
    | .ok msgs =>
      Except.ok ((acc.1.1 ++ [(fw.1, bw.2)],
        acc.1.2 ++ [⟨now, "tool_updated", tool, fw.1, tool ++ "/" ++ fw.1⟩]),
        acc.2 ++ msgs)
    | .error e => Except.error e
  else Except.ok ((acc.1.1 ++ [(fw.1, bw.2)], acc.1.2), acc.2)

theorem checkFileStepM_shape (cbs : Callbacks) (fs : WatcherFS)
    (tool now : String) :
    ∀ s logs fw, ∃ nl,
      checkFileStepM cbs fs tool now (s, logs) fw
        = Except.ok (checkFileStepP fs tool now s fw, logs ++ nl) := by
  intro s logs fw
  unfold checkFileStepM checkFileStepP
  by_cases hb : (hasChanged (fileLookup fs tool fw.1) fw.2).1 = true
  · refine ⟨collectCallbackErrors (getCallbacks cbs "tool_updated") tool
      [("file", fw.1)], ?_⟩
    rw [trigger_event_ok]
    simp [hb]
  · exact ⟨[], by simp [hb]⟩

theorem checkFileStepM_silent (fs : WatcherFS) (tool now : String) :
    ∀ s logs fw,
      checkFileStepM noCallbacks fs tool now (s, logs) fw
        = Except.ok (checkFileStepP fs tool now s fw, logs) := by
  intro s logs fw
  unfold checkFileStepM checkFileStepP
  by_cases hb : (hasChanged (fileLookup fs tool fw.1) fw.2).1 = true
  · rw [trigger_event_ok]
    simp [hb, collectCallbackErrors, getCallbacks, noCallbacks]
  · simp [hb]

/-- Pure state update of the outer tool loop of check. -/
def checkToolStepP (fs : WatcherFS) (now : String)
    (s : List (String × List (String × FileWatcherRec)) × List ChangeEvent)
    (tw : String × List (String × FileWatcherRec)) :
    List (String × List (String × FileWatcherRec)) × List ChangeEvent :=
  let r := tw.2.foldl (checkFileStepP fs tw.1 now) ([], s.2)
  (s.1 ++ [(tw.1, r.1)], r.2)

/-- One iteration of the outer tool loop of check. -/
def checkToolStepM (cbs : Callbacks) (fs : WatcherFS) (now : String)
    (acc : (List (String × List (String × FileWatcherRec))
      × List ChangeEvent) × List String)
    (tw : String × List (String × FileWatcherRec)) :
    Except String ((List (String × List (String × FileWatcherRec))
      × List ChangeEvent) × List String) :=
  match tw.2.foldlM (checkFileStepM cbs fs tw.1 now) (([], acc.1.2), acc.2) with
  | .ok r => Except.ok ((acc.1.1 ++ [(tw.1, r.1.1)], r.1.2), r.2)
  | .error e => Except.error e

theorem checkToolStepM_shape (cbs : Callbacks) (fs : WatcherFS)
    (now : String) :
    ∀ s logs tw, ∃ nl,
      checkToolStepM cbs fs now (s, logs) tw
        = Except.ok (checkToolStepP fs now s tw, logs ++ nl) := by
  intro s logs tw
  obtain ⟨nl, h⟩ := foldlM_shape (checkFileStepM cbs fs tw.1 now)
    (checkFileStepP fs tw.1 now) (checkFileStepM_shape cbs fs tw.1 now)
    tw.2 ([], s.2) logs
  refine ⟨nl, ?_⟩
  unfold checkToolStepM checkToolStepP
  rw [h]

theorem checkToolStepM_silent (fs : WatcherFS) (now : String) :
    ∀ s logs tw,
      checkToolStepM noCallbacks fs now (s, logs) tw
        = Except.ok (checkToolStepP fs now s tw, logs) := by
  intro s logs tw
  have h := foldlM_silent (checkFileStepM noCallbacks fs tw.1 now)
    (checkFileStepP fs tw.1 now) (checkFileStepM_silent fs tw.1 now)
    tw.2 ([], s.2) logs
  unfold checkToolStepM checkToolStepP
  rw [h]

/-- ToolWatcher.check: rescan the directory (firing added/removed events),
then test every watched file of every watched tool for changes, firing
tool_updated and collecting the change events. -/
def check (fs : WatcherFS) (st : WatcherState) (cbs : Callbacks)
    (now : String) :
    Except String (List ChangeEvent × WatcherState × List String) :=
  match scan_tools fs st cbs with
  | .error e => Except.error e
  | .ok (st1, logs1) =>
    match st1.watchers.foldlM (checkToolStepM cbs fs now) (([], []), logs1) with
    | .error e => Except.error e
    | .ok r => Except.ok (r.1.2, ⟨r.1.1, st1.known_tools⟩, r.2)

/-- ToolWatcher.watch_loop over a list of successive directory snapshots
(bounded iteration count; the sleep and printing are outside the model). -/
def watch_loop (snapshots : List WatcherFS) (st : WatcherState)
    (cbs : Callbacks) (now : String) :
    Except String (WatcherState × List String) :=
  snapshots.foldlM (fun acc fsi =>
    match check fsi acc.1 cbs now with
    | .ok r => Except.ok (r.2.1, acc.2 ++ r.2.2)
    | .error e => Except.error e) (st, [])

theorem check_ok (fs : WatcherFS) (st : WatcherState) (cbs : Callbacks)
    (now : String) :
    ∃ changes st2 logs,
      check fs st cbs now = Except.ok (changes, st2, logs)
      ∧ check fs st noCallbacks now = Except.ok (changes, st2, []) := by
  obtain ⟨st1, logs1, hscan, hscans⟩ := scan_tools_ok fs st cbs
  obtain ⟨nl, hfold⟩ := foldlM_shape (checkToolStepM cbs fs now)
    (checkToolStepP fs now) (checkToolStepM_shape cbs fs now)
    st1.watchers ([], []) logs1
  have hfolds := foldlM_silent (checkToolStepM noCallbacks fs now)
    (checkToolStepP fs now) (checkToolStepM_silent fs now)
    st1.watchers ([], []) []
  refine ⟨(st1.watchers.foldl (checkToolStepP fs now) ([], [])).2,
    ⟨(st1.watchers.foldl (checkToolStepP fs now) ([], [])).1,
      st1.known_tools⟩, logs1 ++ nl, ?_, ?_⟩
  · unfold check
    rw [hscan]
    show (match st1.watchers.foldlM (checkToolStepM cbs fs now)
          (([], []), logs1) with
      | .error e => Except.error e
      | .ok r => Except.ok (r.1.2,
          (⟨r.1.1, st1.known_tools⟩ : WatcherState), r.2)) = _
    rw [hfold]
  · unfold check
    rw [hscans]
    show (match st1.watchers.foldlM (checkToolStepM noCallbacks fs now)
          (([], []), []) with
      | .error e => Except.error e
      | .ok r => Except.ok (r.1.2,
          (⟨r.1.1, st1.known_tools⟩ : WatcherState), r.2)) = _
    rw [hfolds]

theorem watch_loop_fold_ok (cbs : Callbacks) (now : String) :
    ∀ (snapshots : List WatcherFS) (acc : WatcherState × List String),
      ∃ st2 logs,
        snapshots.foldlM (fun acc fsi =>
          match check fsi acc.1 cbs now with
          | .ok r => Except.ok (r.2.1, acc.2 ++ r.2.2)
          | .error e => Except.error e) acc
        = Except.ok (st2, logs) := by
  intro snapshots
  induction snapshots with
  | nil => intro acc; exact ⟨acc.1, acc.2, rfl⟩
  | cons f rest ih =>
    intro acc
    obtain ⟨ch, st2, logs, hc, _⟩ := check_ok f acc.1 cbs now
    obtain ⟨st3, logs3, h3⟩ := ih (st2, acc.2 ++ logs)
    refine ⟨st3, logs3, ?_⟩
    rw [List.foldlM_cons, hc]
    exact h3

/-! ### Claim C9 -/

/-- C9: a callback exception is caught and logged, never propagated: the
trigger loop returns normally with one log entry per raising callback
(every callback is invoked), check and the watch loop always return
normally, and the change events and watcher state produced by check are
exactly those of a run with no callbacks at all — failing callbacks never
stop the processing of the remaining callbacks or watched files. -/
theorem C9_callback_exceptions_contained (fs : WatcherFS) (st : WatcherState)
    (cbs : Callbacks) (now : String) :
    (∀ event tool_name details,
      trigger_event cbs event tool_name details
        = Except.ok (collectCallbackErrors (getCallbacks cbs event)
            tool_name details))
    ∧ (∃ changes st2 logs,
        check fs st cbs now = Except.ok (changes, st2, logs)
        ∧ check fs st noCallbacks now = Except.ok (changes, st2, []))
    ∧ (∀ snapshots : List WatcherFS, ∃ st2 logs,
        watch_loop snapshots st cbs now = Except.ok (st2, logs)) := by
  refine ⟨fun event tool_name details => trigger_event_ok cbs event tool_name
    details, check_ok fs st cbs now, ?_⟩
  intro snapshots
  unfold watch_loop
  exact watch_loop_fold_ok cbs now snapshots (st, [])
